import Mathlib

/-!
Verification of the Langfuse filter pipeline adapter.

This file gives a shallow embedding of the two pipeline variants of the
repository:

* `src/pipelines-1.py` — the strict variant (raises on validation and
  backend failures); its handlers are embedded as `inlet1` / `outlet1`.
* `src/pipelines-3.py` — the defensive variant (catches and logs failures);
  its handlers are embedded as `inlet3` / `outlet3`.

Request/response bodies are JSON-like Python dicts, embedded as the
inductive type `Val`.  The adapter's process-wide state (`chat_traces`,
`model_names`) together with a log of attempted and successful backend
calls is the structure `PState`.  Backend (Langfuse) calls may fail; a
failure oracle `fails : Nat → Bool` decides whether the n-th attempted
backend call of the run raises.  Python exceptions are embedded as
`Except PErr`; since a Python `raise` does not roll back heap state, the
handlers return the state both on success and on failure.

The embedding assumes the Langfuse client object itself is initialized
(`self.langfuse` is not `None`), as established by `on_startup`; backend
call failures are covered by the oracle instead.  Debug logging
(`self.log`, `print`) has no observable effect and is not modelled.
-/

/-- A JSON-like Python value: `None`, an integer, a string, a list, or a
dict with string keys (insertion ordered, as in Python). -/
inductive Val where
  | null
  | int (n : Int)
  | str (s : String)
  | list (xs : List Val)
  | dict (fs : List (String × Val))
deriving Repr

mutual

def valDecEq : (a b : Val) → Decidable (a = b)
  | .null, .null => isTrue rfl
  | .null, .int _ => isFalse (by intro h; cases h)
  | .null, .str _ => isFalse (by intro h; cases h)
  | .null, .list _ => isFalse (by intro h; cases h)
  | .null, .dict _ => isFalse (by intro h; cases h)
  | .int _, .null => isFalse (by intro h; cases h)
  | .int a, .int b =>
    match decEq a b with
    | isTrue h => isTrue (by rw [h])
    | isFalse h => isFalse (by intro hh; injection hh; contradiction)
  | .int _, .str _ => isFalse (by intro h; cases h)
  | .int _, .list _ => isFalse (by intro h; cases h)
  | .int _, .dict _ => isFalse (by intro h; cases h)
  | .str _, .null => isFalse (by intro h; cases h)
  | .str _, .int _ => isFalse (by intro h; cases h)
  | .str a, .str b =>
    match decEq a b with
    | isTrue h => isTrue (by rw [h])
    | isFalse h => isFalse (by intro hh; injection hh; contradiction)
  | .str _, .list _ => isFalse (by intro h; cases h)
  | .str _, .dict _ => isFalse (by intro h; cases h)
  | .list _, .null => isFalse (by intro h; cases h)
  | .list _, .int _ => isFalse (by intro h; cases h)
  | .list _, .str _ => isFalse (by intro h; cases h)
  | .list xs, .list ys =>
    match valListDecEq xs ys with
    | isTrue h => isTrue (by rw [h])
    | isFalse h => isFalse (by intro hh; injection hh; contradiction)
  | .list _, .dict _ => isFalse (by intro h; cases h)
  | .dict _, .null => isFalse (by intro h; cases h)
  | .dict _, .int _ => isFalse (by intro h; cases h)
  | .dict _, .str _ => isFalse (by intro h; cases h)
  | .dict _, .list _ => isFalse (by intro h; cases h)
  | .dict fs, .dict gs =>
    match valFieldsDecEq fs gs with
    | isTrue h => isTrue (by rw [h])
    | isFalse h => isFalse (by intro hh; injection hh; contradiction)

def valListDecEq : (a b : List Val) → Decidable (a = b)
  | [], [] => isTrue rfl
  | [], _ :: _ => isFalse (by intro h; cases h)
  | _ :: _, [] => isFalse (by intro h; cases h)
  | x :: xs, y :: ys =>
    match valDecEq x y with
    | isFalse h => isFalse (by intro hh; injection hh; contradiction)
    | isTrue h1 =>
      match valListDecEq xs ys with
      | isTrue h2 => isTrue (by rw [h1, h2])
      | isFalse h2 => isFalse (by intro hh; injection hh; contradiction)

def valFieldsDecEq : (a b : List (String × Val)) → Decidable (a = b)
  | [], [] => isTrue rfl
  | [], _ :: _ => isFalse (by intro h; cases h)
  | _ :: _, [] => isFalse (by intro h; cases h)
  | (k, v) :: xs, (k2, v2) :: ys =>
    match decEq k k2 with
    | isFalse h => isFalse (by intro hh; injection hh with h1 h2; injection h1; contradiction)
    | isTrue hk =>
      match valDecEq v v2 with
      | isFalse h => isFalse (by intro hh; injection hh with h1 h2; injection h1; contradiction)
      | isTrue hv =>
        match valFieldsDecEq xs ys with
        | isTrue ht => isTrue (by rw [hk, hv, ht])
        | isFalse h => isFalse (by intro hh; injection hh; contradiction)

end

instance : DecidableEq Val := valDecEq

/-- Lookup in an insertion-ordered dict (first match wins, as Python dicts
hold each key once). -/
def dlookup : List (String × Val) → String → Option Val
  | [], _ => none
  | (k, v) :: rest, key => if k = key then some v else dlookup rest key

/-- Python `d[k] = v`: overwrite in place if the key exists, else append. -/
def dset : List (String × Val) → String → Val → List (String × Val)
  | [], key, v => [(key, v)]
  | (k, w) :: rest, key, v =>
    if k = key then (key, v) :: rest else (k, w) :: dset rest key v

/-- Python `d.get(k)`, `None` when the receiver is not a dict (the code
only ever calls `.get` on dicts; theorems guard the dict-ness where the
Python code would raise `AttributeError` instead). -/
def Val.get : Val → String → Option Val
  | .dict fs, k => dlookup fs k
  | _, _ => none

/-- Python `d.get(k, default)`. -/
def Val.getD (v : Val) (k : String) (d : Val) : Val := (v.get k).getD d

/-- Python `d.get(k)` (default `None`). -/
def Val.getN (v : Val) (k : String) : Val := (v.get k).getD .null

/-- Python `k in d`. -/
def Val.hasKey (v : Val) (k : String) : Bool :=
  match v with
  | .dict fs => (dlookup fs k).isSome
  | _ => false

/-- Python `d[k] = x` on a dict value (identity on non-dicts; the code
only assigns into dicts). -/
def Val.set (v : Val) (k : String) (x : Val) : Val :=
  match v with
  | .dict fs => .dict (dset fs k x)
  | _ => v

/-- Whether a value is a Python dict. -/
def Val.isDict : Val → Bool
  | .dict _ => true
  | _ => false

/-- Python truthiness. -/
def truthy : Val → Bool
  | .null => false
  | .int n => n ≠ 0
  | .str s => !s.isEmpty
  | .list xs => !xs.isEmpty
  | .dict fs => !fs.isEmpty

/-- Python `a or b`. -/
def pyOr (a b : Val) : Val := if truthy a then a else b

mutual

/-- Python `str(v)` as used by the f-strings of the pipeline.  Scalars
follow CPython exactly; for containers the rendering approximates the
CPython repr (quoting of nested strings is elided).  The handlers only
stringify conversation ids, session ids and task names, which are scalars
in every theorem below. -/
def pyStr : Val → String
  | .null => "None"
  | .int n => toString n
  | .str s => s
  | .list xs => "[" ++ String.intercalate ", " (pyStrList xs) ++ "]"
  | .dict fs => "\x7b" ++ String.intercalate ", " (pyStrFields fs) ++ "\x7d"

def pyStrList : List Val → List String
  | [] => []
  | v :: vs => pyStr v :: pyStrList vs

def pyStrFields : List (String × Val) → List String
  | [] => []
  | (k, v) :: fs => (k ++ ": " ++ pyStr v) :: pyStrFields fs

end

/-- One Langfuse backend call, with the payload the adapter hands it.
`traceOpen` is `langfuse.trace(**payload)`; `traceUpdate` is
`trace.update(...)`; `generation` is `trace.generation(**payload)`;
`generationEnd` is `trace.generation().end(**payload)`; `event` is
`trace.event(**payload)`; `flush` is `langfuse.flush()`. -/
inductive BEvent where
  | traceOpen (tid : Nat) (payload : Val)
  | traceUpdate (tid : Nat) (payload : Val)
  | generation (tid : Nat) (payload : Val)
  | generationEnd (tid : Nat) (payload : Val)
  | event (tid : Nat) (payload : Val)
  | flush
deriving DecidableEq, Repr

/-- Exceptions the handlers can raise: `ValueError` (strict-variant
validation), `KeyError`/`TypeError` (malformed bodies) and any error
raised by a Langfuse call. -/
inductive PErr where
  | valueError (msg : String)
  | keyError
  | typeError
  | backendError
deriving DecidableEq, Repr

deriving instance DecidableEq for Except

/-- Process-wide adapter state: `self.chat_traces` (ConversationTraceStore,
conversation key to opaque trace handle), `self.model_names`
(ModelRegistry, conversation key to `{"id": .., "name": ..}` record),
a counter allocating fresh trace handles, a counter allocating the fresh
ids drawn by `uuid.uuid4()`, the list of attempted backend calls and the
sublist of those that succeeded. -/
structure PState where
  chat_traces : List (Val × Nat) := []
  model_names : List (Val × Val) := []
  nextTrace : Nat := 0
  uuidCtr : Nat := 0
  calls : List BEvent := []
  events : List BEvent := []
deriving DecidableEq, Repr

/-- The configuration valves that influence the handlers' semantics
(`secret_key`/`public_key`/`host`/`debug` only affect the out-of-scope
transport and logging). -/
structure Valves where
  insert_tags : Bool := true
  use_model_name_instead_of_id_for_generation : Bool := false
deriving DecidableEq, Repr

/-- Lookup in a Python dict keyed by arbitrary values
(`self.chat_traces` / `self.model_names` are keyed by chat ids taken from
the body). -/
def alookup {β : Type} : List (Val × β) → Val → Option β
  | [], _ => none
  | (k, v) :: rest, key => if k = key then some v else alookup rest key

/-- Python `d[key] = v` for value-keyed dicts. -/
def aset {β : Type} : List (Val × β) → Val → β → List (Val × β)
  | [], key, v => [(key, v)]
  | (k, w) :: rest, key, v =>
    if k = key then (key, v) :: rest else (k, w) :: aset rest key v

/-- Draw `str(uuid.uuid4())`: fresh ids are modelled by a counter. -/
def uuid4 (st : PState) : String × PState :=
  ("uuid-" ++ toString st.uuidCtr, { st with uuidCtr := st.uuidCtr + 1 })

/-- Attempt one backend call: the oracle decides from the number of calls
attempted so far whether this one raises.  The attempt is always logged in
`calls`; only a successful call lands in `events`. -/
def tryCall (fails : Nat → Bool) (st : PState) (ev : BEvent) : Bool × PState :=
  if fails st.calls.length then
    (true, { st with calls := st.calls ++ [ev] })
  else
    (false, { st with calls := st.calls ++ [ev], events := st.events ++ [ev] })

/-- `Pipeline._build_tags` (identical in `pipelines-1.py` lines 96-103 and
`pipelines-3.py` lines 102-112): base label `"open-webui"` when tagging is
enabled, plus the task name unless it is one of the two default kinds. -/
def build_tags (insert_tags : Bool) (task_name : Val) : List Val :=
  if insert_tags then
    if task_name = Val.str "user_response" ∨ task_name = Val.str "llm_response" then
      [Val.str "open-webui"]
    else
      [Val.str "open-webui", task_name]
  else []

/-- Scan of `get_last_assistant_message_obj` over the already-reversed
message list: Python raises `KeyError` when a message lacks `"role"`. -/
def lastAssistantScan : List Val → Except PErr Val
  | [] => .ok (Val.dict [])
  | m :: rest =>
    match m.get "role" with
    | none => .error .keyError
    | some r => if r = Val.str "assistant" then .ok m else lastAssistantScan rest

/-- `get_last_assistant_message_obj` (`pipelines-1.py` lines 17-22,
`pipelines-3.py` lines 22-27): walk the messages in reverse and return the
first whose `"role"` is `"assistant"`, else `{}`. -/
def get_last_assistant_message_obj (messages : List Val) : Except PErr Val :=
  lastAssistantScan messages.reverse

/-- Total helper used by the spec-modelled content extractor below. -/
def lastAssistantTotal (messages : List Val) : Option Val :=
  messages.reverse.find? (fun m => m.getN "role" = Val.str "assistant")

/-- Modelled from the spec: `get_last_assistant_message` is imported from
`utils.pipelines.main`, which is not part of this repository.  Per the
spec (§4.7 step 5) it extracts the content of the last assistant-authored
message of the response, "may be empty string if none". -/
def get_last_assistant_message (messages : List Val) : Val :=
  match lastAssistantTotal messages with
  | some m => m.getD "content" (Val.str "")
  | none => Val.str ""

/-- The usage extraction of the outlet (`pipelines-1.py` lines 240-252 and
`pipelines-3.py` lines 323-335, identical): from the last assistant
message object, read the `"usage"` sub-dict and resolve the input count as
`info.get("prompt_eval_count") or info.get("prompt_tokens")` and the
output count as `info.get("eval_count") or info.get("completion_tokens")`;
report `{input, output, unit: "TOKENS"}` only when both resolved values
are not `None`, else report nothing (`None`). -/
def extract_usage (assistant_message_obj : Val) : Val :=
  if truthy assistant_message_obj then
    let info := assistant_message_obj.getD "usage" (Val.dict [])
    if info.isDict then
      let input_tokens := pyOr (info.getN "prompt_eval_count") (info.getN "prompt_tokens")
      let output_tokens := pyOr (info.getN "eval_count") (info.getN "completion_tokens")
      if input_tokens ≠ Val.null ∧ output_tokens ≠ Val.null then
        Val.dict [("input", input_tokens), ("output", output_tokens),
                  ("unit", Val.str "TOKENS")]
      else Val.null
    else Val.null
  else Val.null

/-- Chat-id resolution of the synthesis branch of
`Pipeline._extract_metadata` (`pipelines-3.py` lines 123-134): the chat id
comes from `body.chat_id`, then `body.metadata.chat_id` (unreachable on
this branch, since it only runs when `"metadata"` is absent), then a fresh
uuid; a `"local"` chat id is rewritten to `temporary-session-{session_id}`
only when a session id is found — else it is kept as-is. -/
def extract_metadata3_cid (st : PState) (body : Val) : Val × PState :=
  let a := body.getN "chat_id"
  let b := (body.getD "metadata" (Val.dict [])).getN "chat_id"
  let (chat_id0, st1) :=
    if truthy a then (a, st)
    else if truthy b then (b, st)
    else
      let (u, st') := uuid4 st
      (Val.str u, st')
  let chat_id :=
    if chat_id0 = Val.str "local" then
      let sess := pyOr (body.getN "session_id")
        ((body.getD "metadata" (Val.dict [])).getN "session_id")
      if truthy sess then Val.str ("temporary-session-" ++ pyStr sess)
      else chat_id0
    else chat_id0
  (chat_id, st1)

/-- Second half of the synthesis branch of `Pipeline._extract_metadata`
(`pipelines-3.py` lines 136-156): build the fresh metadata record around
the resolved chat id. -/
def extract_metadata3_fields (body chat_id : Val) : Val :=
  let m := (Val.dict []).set "chat_id" chat_id
  let m := if body.hasKey "user_id" then m.set "user_id" (body.getN "user_id") else m
  let m := if body.hasKey "message_id" then m.set "message_id" (body.getN "message_id") else m
  let m := if body.hasKey "session_id" then m.set "session_id" (body.getN "session_id") else m
  let m := if body.hasKey "interface" then m.set "interface" (body.getN "interface") else m
  let m := if body.hasKey "type" then m.set "type" (body.getN "type") else m
  let m :=
    if body.hasKey "model" then
      match body.getN "model" with
      | Val.dict fs => m.set "model" (Val.dict fs)
      | Val.str s => m.set "model" (Val.dict [("id", Val.str s)])
      | _ => m
    else m
  m

/-- `Pipeline._extract_metadata` (`pipelines-3.py` lines 114-157).  When
the body carries a `"metadata"` sub-object it is returned as-is (whatever
it contains); otherwise a record is synthesized from the resolved chat id
and the copied-through fields. -/
def extract_metadata3 (st : PState) (body : Val) : PState × Val :=
  if body.hasKey "metadata" then (st, body.getN "metadata")
  else
    let (chat_id, st1) := extract_metadata3_cid st body
    (st1, extract_metadata3_fields body chat_id)

/-- `pipelines-1.py` lines 109-116 of `Pipeline.inlet`: read the metadata
sub-dict, resolve the chat id (with eager uuid defaults, as Python
evaluates `.get` default arguments eagerly), rewrite a `"local"` id to
`temporary-session-{session_id}`, and store the id back into the metadata
record (line 118).  Returns (state, chat id, updated metadata). -/
def inlet1_meta (st : PState) (body : Val) : PState × Val × Val :=
  let metadata0 := body.getD "metadata" (Val.dict [])
  let (u1, st1) := uuid4 st
  let cid0 := metadata0.getD "chat_id" (Val.str u1)
  let (chat_id, st2) :=
    if cid0 = Val.str "local" then
      let (u2, st') := uuid4 st1
      let sess := metadata0.getD "session_id" (Val.str u2)
      (Val.str ("temporary-session-" ++ pyStr sess), st')
    else (cid0, st1)
  (st2, chat_id, metadata0.set "chat_id" chat_id)

/-- `pipelines-1.py` lines 122-130: store the model id observed on the
request into `self.model_names[chat_id]`, and the display name when the
metadata's model object carries one. -/
def inlet1_models (st : PState) (chat_id metadata1 body : Val) : PState :=
  let model_info := metadata1.getD "model" (Val.dict [])
  let model_id := body.getN "model"
  let mn1 :=
    match alookup st.model_names chat_id with
    | none => Val.dict [("id", model_id)]
    | some r => r.set "id" model_id
  let st1 := { st with model_names := aset st.model_names chat_id mn1 }
  if model_info.isDict ∧ model_info.hasKey "name" then
    { st1 with model_names := aset st1.model_names chat_id (mn1.set "name" (model_info.getN "name")) }
  else st1

/-- `pipelines-1.py` lines 132-133: the required keys absent from the
request body, in order. -/
def missing_keys (body : Val) : List String :=
  ["model", "messages"].filter (fun k => ¬ body.hasKey k)

/-- `pipelines-1.py` lines 145-168: look the conversation up in
`self.chat_traces`; if absent, attempt the backend `langfuse.trace` call
and register the handle (a failure is re-raised, leaving the conversation
unregistered); if present, reuse the handle and push the tags via
`trace.update` (un-guarded in this variant, so a failure raises). -/
def inlet1_trace (fails : Nat → Bool) (st : PState) (chat_id : Val)
    (trace_payload : Val) (tags : List Val) : PState × Except PErr Nat :=
  match alookup st.chat_traces chat_id with
  | none =>
    let tid := st.nextTrace
    let (failed, st1) := tryCall fails st (.traceOpen tid trace_payload)
    if failed then (st1, .error .backendError)
    else
      let st2 := { st1 with chat_traces := aset st1.chat_traces chat_id tid, nextTrace := tid + 1 }
      (st2, .ok tid)
  | some tid =>
    if tags = [] then (st, .ok tid)
    else
      let (failed, st1) := tryCall fails st
        (.traceUpdate tid (Val.dict [("tags", Val.list tags)]))
      if failed then (st1, .error .backendError) else (st1, .ok tid)

/-- `pipelines-1.py` lines 170-213: enrich the metadata with `type` and
`interface`, then emit a generation-start record when the task is in
`GENERATION_TASKS = {"llm_response"}` (model resolved from the registry
with the request model as fallback) or a generic event otherwise; a
backend failure is re-raised.  `bodyM` is the request body after
`body["metadata"] = metadata` (line 119), whose `"metadata"` entry the
final return aliases. -/
def inlet1_record (cfg : Valves) (fails : Nat → Bool) (st : PState) (tid : Nat)
    (bodyM chat_id metadata1 task_name : Val) (tags : List Val) :
    PState × Except PErr Val :=
  let metadata2 := (metadata1.set "type" task_name).set "interface" (Val.str "open-webui")
  if task_name = Val.str "llm_response" then
    let model_id := ((alookup st.model_names chat_id).getD (Val.dict [])).getD "id" (bodyM.getN "model")
    let model_name := ((alookup st.model_names chat_id).getD (Val.dict [])).getD "name" (Val.str "unknown")
    let model_value := if cfg.use_model_name_instead_of_id_for_generation then model_name else model_id
    let metadata3 := (metadata2.set "model_id" model_id).set "model_name" model_name
    let (u, st1) := uuid4 st
    let payload := Val.dict ([("name", Val.str (pyStr task_name ++ ":" ++ u)),
        ("model", model_value),
        ("input", bodyM.getN "messages"),
        ("metadata", metadata3)] ++
      (if tags = [] then [] else [("tags", Val.list tags)]))
    let (failed, st2) := tryCall fails st1 (.generation tid payload)
    if failed then (st2, .error .backendError)
    else (st2, .ok (bodyM.set "metadata" metadata3))
  else
    let (u, st1) := uuid4 st
    let payload := Val.dict ([("name", Val.str (pyStr task_name ++ ":" ++ u)),
        ("metadata", metadata2),
        ("input", bodyM.getN "messages")] ++
      (if tags = [] then [] else [("tags", Val.list tags)]))
    let (failed, st2) := tryCall fails st1 (.event tid payload)
    if failed then (st2, .error .backendError)
    else (st2, .ok (bodyM.set "metadata" metadata2))

/-- The tail of `Pipeline.inlet` of `pipelines-1.py`: a raising
get-or-create propagates the exception, a successful one hands the trace
handle to the record-emission step (lines 158-213). -/
def inlet1_tail (cfg : Valves) (fails : Nat → Bool)
    (bodyM chat_id metadata1 task_name : Val) (tags : List Val) :
    PState × Except PErr Nat → PState × Except PErr Val
  | (st3, .error e) => (st3, .error e)
  | (st3, .ok tid) => inlet1_record cfg fails st3 tid bodyM chat_id metadata1 task_name tags

/-- `Pipeline.inlet` of `pipelines-1.py` (lines 105-213), the strict
variant: resolve the chat id, update the model registry, raise
`ValueError` when `"model"` or `"messages"` is missing, get-or-create the
trace, emit the start record, and return the body whose `"metadata"` key
aliases the enriched metadata record.  Backend failures raise. -/
def inlet1 (cfg : Valves) (fails : Nat → Bool) (st : PState) (body user : Val) :
    PState × Except PErr Val :=
  if ¬ body.isDict then (st, .error .typeError) else
  if ¬ (body.getD "metadata" (Val.dict [])).isDict then (st, .error .typeError) else
  let (st1, chat_id, metadata1) := inlet1_meta st body
  let bodyM := body.set "metadata" metadata1
  let st2 := inlet1_models st1 chat_id metadata1 body
  if missing_keys body ≠ [] then
    (st2, .error (.valueError ("Error: Missing keys in request body: " ++
      String.intercalate ", " (missing_keys body))))
  else
  let user_email := if truthy user then user.getN "email" else Val.null
  let task_name := metadata1.getD "task" (Val.str "user_response")
  let tags := build_tags cfg.insert_tags task_name
  let trace_payload := Val.dict ([("name", Val.str ("chat:" ++ pyStr chat_id)),
      ("input", bodyM),
      ("user_id", user_email),
      ("metadata", metadata1),
      ("session_id", chat_id)] ++
    (if tags = [] then [] else [("tags", Val.list tags)]))
  inlet1_tail cfg fails bodyM chat_id metadata1 task_name tags
    (inlet1_trace fails st2 chat_id trace_payload tags)

/-- `pipelines-1.py` lines 219-223 of `Pipeline.outlet`: the chat id comes
from `body.chat_id`; a `"local"` id is rewritten using `body.session_id`
(with an eagerly drawn uuid default). -/
def outlet1_cid (st : PState) (body : Val) : PState × Val :=
  let cid0 := body.getN "chat_id"
  if cid0 = Val.str "local" then
    let (u, st1) := uuid4 st
    let sess := body.getD "session_id" (Val.str u)
    (st1, Val.str ("temporary-session-" ++ pyStr sess))
  else (st, cid0)

/-- The tail of `Pipeline.outlet` of `pipelines-1.py` (lines 237-303)
once a registered trace was found and the message list read: extract the
last assistant message and usage, push the trace output update
(un-guarded, so a failure raises), and emit the generation-end or event
end-record (a failure is re-raised); on success return the body, whose
`"metadata"` entry (when the body has one) aliases the enriched
metadata. -/
def outlet1_finish (cfg : Valves) (fails : Nat → Bool) (st1 : PState) (tid : Nat)
    (body metadata chat_id task_name : Val) (tags : List Val) (msgs : List Val) :
    PState × Except PErr Val :=
  let assistant_message := get_last_assistant_message msgs
  match get_last_assistant_message_obj msgs with
  | .error e => (st1, .error e)
  | .ok amo =>
    let usage := extract_usage amo
    let (failedU, st2) := tryCall fails st1
      (.traceUpdate tid (Val.dict [("output", assistant_message)]))
    if failedU then (st2, .error .backendError) else
    let metadata2 := (metadata.set "type" task_name).set "interface" (Val.str "open-webui")
    if task_name = Val.str "llm_response" then
      let model_id := ((alookup st2.model_names chat_id).getD (Val.dict [])).getD "id" (body.getN "model")
      let model_name := ((alookup st2.model_names chat_id).getD (Val.dict [])).getD "name" (Val.str "unknown")
      let model_value := if cfg.use_model_name_instead_of_id_for_generation then model_name else model_id
      let metadata3 := (metadata2.set "model_id" model_id).set "model_name" model_name
      let (u, st3) := uuid4 st2
      let payload := Val.dict ([("name", Val.str (pyStr task_name ++ ":" ++ u)),
          ("model", model_value),
          ("input", Val.list msgs),
          ("metadata", metadata3),
          ("usage", usage)] ++
        (if tags = [] then [] else [("tags", Val.list tags)]))
      let (failed, st4) := tryCall fails st3 (.generationEnd tid payload)
      if failed then (st4, .error .backendError)
      else (st4, .ok (if body.hasKey "metadata" then body.set "metadata" metadata3 else body))
    else
      let metadataF := if truthy usage then metadata2.set "usage" usage else metadata2
      let (u, st3) := uuid4 st2
      let payload := Val.dict ([("name", Val.str (pyStr task_name ++ ":" ++ u)),
          ("metadata", metadataF),
          ("input", Val.list msgs)] ++
        (if tags = [] then [] else [("tags", Val.list tags)]))
      let (failed, st4) := tryCall fails st3 (.event tid payload)
      if failed then (st4, .error .backendError)
      else (st4, .ok (if body.hasKey "metadata" then body.set "metadata" metadataF else body))

/-- `Pipeline.outlet` of `pipelines-1.py` (lines 215-303), the strict
variant.  When the chat id has no registered trace it re-invokes the full
inlet on the same body and returns its result (lines 231-233).  Otherwise
it reads `body["messages"]` (a `KeyError` when absent), extracts the last
assistant message and usage, pushes the trace output update, and emits the
generation-end or event record; every backend failure raises, and no flush
is attempted. -/
def outlet1 (cfg : Valves) (fails : Nat → Bool) (st : PState) (body user : Val) :
    PState × Except PErr Val :=
  if ¬ body.isDict then (st, .error .typeError) else
  let (st1, chat_id) := outlet1_cid st body
  let metadata := body.getD "metadata" (Val.dict [])
  if ¬ metadata.isDict then (st1, .error .typeError) else
  let task_name := metadata.getD "task" (Val.str "llm_response")
  let tags := build_tags cfg.insert_tags task_name
  match alookup st1.chat_traces chat_id with
  | none => inlet1 cfg fails st1 body user
  | some tid =>
    match body.get "messages" with
    | none => (st1, .error .keyError)
    | some msgsV =>
      match msgsV with
      | Val.list msgs =>
        outlet1_finish cfg fails st1 tid body metadata chat_id task_name tags msgs
      | _ => (st1, .error .typeError)

/-- `pipelines-3.py` lines 210-240 of `Pipeline.inlet`: look the
conversation up in `self.chat_traces`; if absent, attempt the backend
`langfuse.trace` call and register the handle — a failure is caught and
makes the inlet return the body early (`none` result); if present, reuse
the handle and push the tags via `trace.update`, whose failure is caught
and logged. -/
def inlet3_getTrace (fails : Nat → Bool) (st : PState) (chat_id : Val)
    (trace_payload : Val) (tags : List Val) : PState × Option Nat :=
  match alookup st.chat_traces chat_id with
  | none =>
    let tid := st.nextTrace
    let (failed, st1) := tryCall fails st (.traceOpen tid trace_payload)
    if failed then (st1, none)
    else
      let st2 := { st1 with chat_traces := aset st1.chat_traces chat_id tid, nextTrace := tid + 1 }
      (st2, some tid)
  | some tid =>
    if tags = [] then (st, some tid)
    else
      let (_, st1) := tryCall fails st
        (.traceUpdate tid (Val.dict [("tags", Val.list tags)]))
      (st1, some tid)

/-- `Pipeline.inlet` of `pipelines-3.py` (lines 159-285), the defensive
variant: extract (or synthesize) the metadata record, store it into the
body, normalize and register the model identity, synthesize a message list
when both `"messages"` and `"input"` are absent, get-or-create the trace
(returning the body early when the open call fails), and emit the
generation/event start record with failures swallowed. -/
def inlet3 (cfg : Valves) (fails : Nat → Bool) (st : PState) (body user : Val) :
    PState × Except PErr Val :=
  if ¬ body.isDict then (st, .error .typeError) else
  let (st1, metadata) := extract_metadata3 st body
  if ¬ metadata.isDict then (st1, .error .typeError) else
  let chat_id := metadata.getN "chat_id"
  let body1 := body.set "metadata" metadata
  let model_info := metadata.getD "model" (Val.dict [])
  let model_id := body.getN "model"
  let ids :=
    match model_id with
    | Val.dict fs => (Val.getD (Val.dict fs) "id" (Val.str "unknown"),
                      Val.getD (Val.dict fs) "name" (Val.str "unknown"))
    | Val.str s => (Val.str s,
        if model_info.isDict then model_info.getD "name" (Val.str "unknown") else Val.str "unknown")
    | _ => (Val.str "unknown", Val.str "unknown")
  let actual_model_id := ids.1
  let model_name := ids.2
  let mn :=
    match alookup st1.model_names chat_id with
    | none => Val.dict [("id", actual_model_id), ("name", model_name)]
    | some r => (r.set "id" actual_model_id).set "name" model_name
  let st2 := { st1 with model_names := aset st1.model_names chat_id mn }
  let body2 :=
    if ¬ body1.hasKey "messages" ∧ ¬ body1.hasKey "input" then
      if body1.hasKey "prompt" then
        body1.set "messages" (Val.list [Val.dict [("role", Val.str "user"), ("content", body1.getN "prompt")]])
      else body1.set "messages" (Val.list [])
    else body1
  let user_email := if truthy user then user.getN "email" else metadata.getN "user_id"
  let task_name := metadata.getD "task" (metadata.getD "type" (Val.str "user_response"))
  let tags := build_tags cfg.insert_tags task_name
  let trace_payload := Val.dict ([("name", Val.str ("chat:" ++ pyStr chat_id)),
      ("input", body2.getD "messages" body2),
      ("user_id", user_email),
      ("metadata", metadata),
      ("session_id", chat_id)] ++
    (if tags = [] then [] else [("tags", Val.list tags)]))
  match inlet3_getTrace fails st2 chat_id trace_payload tags with
  | (st3, none) => (st3, .ok body2)
  | (st3, some tid) =>
    let metadata2 := (metadata.set "type" task_name).set "interface"
      (metadata.getD "interface" (Val.str "open-webui"))
    if task_name = Val.str "llm_response" then
      let model_value := if cfg.use_model_name_instead_of_id_for_generation then model_name else actual_model_id
      let metadata3 := (metadata2.set "model_id" actual_model_id).set "model_name" model_name
      let (u, st4) := uuid4 st3
      let payload := Val.dict ([("name", Val.str (pyStr task_name ++ ":" ++ u)),
          ("model", model_value),
          ("input", body2.getD "messages" (Val.list [])),
          ("metadata", metadata3)] ++
        (if tags = [] then [] else [("tags", Val.list tags)]))
      let (_, st5) := tryCall fails st4 (.generation tid payload)
      (st5, .ok (body2.set "metadata" metadata3))
    else
      let (u, st4) := uuid4 st3
      let payload := Val.dict ([("name", Val.str (pyStr task_name ++ ":" ++ u)),
          ("metadata", metadata2),
          ("input", body2.getD "messages" body2)] ++
        (if tags = [] then [] else [("tags", Val.list tags)]))
      let (_, st5) := tryCall fails st4 (.event tid payload)
      (st5, .ok (body2.set "metadata" metadata2))

/-- `pipelines-3.py` lines 336-394 of `Pipeline.outlet`: the tail of the
outlet after the messages have been resolved — push the trace output
update (failure caught), enrich the metadata, and emit the generation-end
record (usage attached only when present) or the event end-record (usage
folded into the aliased metadata); record failures are caught, and the
body is returned with its `"metadata"` entry aliasing the enriched
record. -/
def outlet3_finish (cfg : Valves) (fails : Nat → Bool) (st : PState) (body : Val)
    (tid : Nat) (chat_id metadata task_name : Val) (tags : List Val)
    (msgsV am : Val) (amoR : Except PErr Val) : PState × Except PErr Val :=
  match amoR with
  | .error e => (st, .error e)
  | .ok amo =>
    let usage := extract_usage amo
    let (_, st1) := tryCall fails st (.traceUpdate tid (Val.dict [("output", pyOr am body)]))
    let metadata2 := (metadata.set "type" task_name).set "interface"
      (metadata.getD "interface" (Val.str "open-webui"))
    if task_name = Val.str "llm_response" then
      let model_id := ((alookup st1.model_names chat_id).getD (Val.dict [])).getD "id" (Val.str "unknown")
      let model_name := ((alookup st1.model_names chat_id).getD (Val.dict [])).getD "name" (Val.str "unknown")
      let model_value := if cfg.use_model_name_instead_of_id_for_generation then model_name else model_id
      let metadata3 := (metadata2.set "model_id" model_id).set "model_name" model_name
      let (u, st2) := uuid4 st1
      let payload := Val.dict ([("name", Val.str (pyStr task_name ++ ":" ++ u)),
          ("model", model_value),
          ("input", msgsV),
          ("output", am),
          ("metadata", metadata3)] ++
        (if truthy usage then [("usage", usage)] else []) ++
        (if tags = [] then [] else [("tags", Val.list tags)]))
      let (_, st3) := tryCall fails st2 (.generationEnd tid payload)
      (st3, .ok (if body.hasKey "metadata" then body.set "metadata" metadata3 else body))
    else
      let metadataF := if truthy usage then metadata2.set "usage" usage else metadata2
      let (u, st2) := uuid4 st1
      let payload := Val.dict ([("name", Val.str (pyStr task_name ++ ":" ++ u)),
          ("metadata", metadataF),
          ("input", msgsV),
          ("output", am)] ++
        (if tags = [] then [] else [("tags", Val.list tags)]))
      let (_, st3) := tryCall fails st2 (.event tid payload)
      (st3, .ok (if body.hasKey "metadata" then body.set "metadata" metadataF else body))

/-- The `try` block of `Pipeline.outlet` of `pipelines-3.py` (lines
289-396): resolve the chat id (same `"local"` rule, but the rewrite only
happens when a session id is found), return the body when the id is falsy
or has no registered trace (no recovery inlet in this variant), then
delegate to `outlet3_finish`.  An embedded `.error` is an exception that
the surrounding `except` of the outlet catches. -/
def outlet3_core (cfg : Valves) (fails : Nat → Bool) (st : PState) (body user : Val) :
    PState × Except PErr Val :=
  if ¬ body.isDict then (st, .error .typeError) else
  let metaRaw := body.getD "metadata" (Val.dict [])
  if ¬ metaRaw.isDict then (st, .error .typeError) else
  let cid0 := pyOr (body.getN "chat_id") (metaRaw.getN "chat_id")
  let chat_id :=
    if cid0 = Val.str "local" then
      let sess := pyOr (body.getN "session_id") (metaRaw.getN "session_id")
      if truthy sess then Val.str ("temporary-session-" ++ pyStr sess) else cid0
    else cid0
  if ¬ truthy chat_id then (st, .ok body) else
  let task_name := metaRaw.getD "task" (metaRaw.getD "type" (Val.str "llm_response"))
  let tags := build_tags cfg.insert_tags task_name
  match alookup st.chat_traces chat_id with
  | none => (st, .ok body)
  | some tid =>
    let msgsV := body.getD "messages" (Val.list [])
    if truthy msgsV then
      match msgsV with
      | Val.list msgs =>
        outlet3_finish cfg fails st body tid chat_id metaRaw task_name tags msgsV
          (get_last_assistant_message msgs) (get_last_assistant_message_obj msgs)
      | _ => (st, .error .typeError)
    else
      outlet3_finish cfg fails st body tid chat_id metaRaw task_name tags msgsV
        (Val.str "") (.ok (Val.dict []))

/-- `Pipeline.outlet` of `pipelines-3.py` (lines 287-406), the defensive
variant: run the guarded body; any exception is caught and the original
body returned instead; the `finally` block attempts a `langfuse.flush`
whose own failure is printed and dropped.  The outlet therefore never
raises and always returns a body. -/
def outlet3 (cfg : Valves) (fails : Nat → Bool) (st : PState) (body user : Val) :
    PState × Val :=
  let (st1, r) := outlet3_core cfg fails st body user
  let (_, st2) := tryCall fails st1 .flush
  (st2, match r with | .ok b => b | .error _ => body)

/-! ## Basic lemmas about the dict operations -/

theorem dlookup_dset_self (fs : List (String × Val)) (k : String) (v : Val) :
    dlookup (dset fs k v) k = some v := by
  induction fs with
  | nil => simp [dset, dlookup]
  | cons p rest ih =>
    obtain ⟨k1, w⟩ := p
    by_cases h : k1 = k
    · simp [dset, h, dlookup]
    · simp [dset, h, dlookup, ih]

theorem dlookup_dset_ne (fs : List (String × Val)) (k k2 : String) (v : Val)
    (h : k2 ≠ k) : dlookup (dset fs k v) k2 = dlookup fs k2 := by
  have hk : k ≠ k2 := Ne.symm h
  induction fs with
  | nil => simp [dset, dlookup, hk]
  | cons p rest ih =>
    obtain ⟨k1, w⟩ := p
    by_cases h1 : k1 = k
    · subst h1
      simp [dset, dlookup, hk]
    · simp [dset, h1, dlookup, ih]

theorem dset_dset_self (fs : List (String × Val)) (k : String) (v w : Val) :
    dset (dset fs k v) k w = dset fs k w := by
  induction fs with
  | nil => simp [dset]
  | cons p rest ih =>
    obtain ⟨k1, x⟩ := p
    by_cases h : k1 = k
    · simp [dset, h]
    · simp [dset, h, ih]

theorem Val.get_set_self (d : Val) (hd : d.isDict = true) (k : String) (v : Val) :
    (d.set k v).get k = some v := by
  cases d <;> simp_all [Val.isDict, Val.set, Val.get, dlookup_dset_self]

theorem Val.get_set_ne (d : Val) (k k2 : String) (v : Val) (h : k2 ≠ k) :
    (d.set k v).get k2 = d.get k2 := by
  cases d <;> simp_all [Val.set, Val.get, dlookup_dset_ne]

theorem Val.getN_set_self (d : Val) (hd : d.isDict = true) (k : String) (v : Val) :
    (d.set k v).getN k = v := by
  simp [Val.getN, Val.get_set_self d hd]

theorem Val.getN_set_ne (d : Val) (k k2 : String) (v : Val) (h : k2 ≠ k) :
    (d.set k v).getN k2 = d.getN k2 := by
  simp [Val.getN, Val.get_set_ne d k k2 v h]

theorem Val.hasKey_set_self (d : Val) (hd : d.isDict = true) (k : String) (v : Val) :
    (d.set k v).hasKey k = true := by
  cases d <;> simp_all [Val.isDict, Val.set, Val.hasKey, dlookup_dset_self]

theorem Val.hasKey_set_ne (d : Val) (k k2 : String) (v : Val) (h : k2 ≠ k) :
    (d.set k v).hasKey k2 = d.hasKey k2 := by
  cases d <;> simp_all [Val.set, Val.hasKey, dlookup_dset_ne]

theorem Val.isDict_set (d : Val) (k : String) (v : Val) :
    (d.set k v).isDict = d.isDict := by
  cases d <;> simp [Val.set, Val.isDict]

theorem Val.set_set_self (d : Val) (k : String) (v w : Val) :
    (d.set k v).set k w = d.set k w := by
  cases d <;> simp [Val.set, dset_dset_self]

theorem alookup_aset_self {β : Type} (l : List (Val × β)) (k : Val) (v : β) :
    alookup (aset l k v) k = some v := by
  induction l with
  | nil => simp [aset, alookup]
  | cons p rest ih =>
    obtain ⟨k1, w⟩ := p
    by_cases h : k1 = k
    · simp [aset, h, alookup]
    · simp [aset, h, alookup, ih]

theorem alookup_aset_ne {β : Type} (l : List (Val × β)) (k k2 : Val) (v : β)
    (h : k2 ≠ k) : alookup (aset l k v) k2 = alookup l k2 := by
  have hk : k ≠ k2 := Ne.symm h
  induction l with
  | nil => simp [aset, alookup, hk]
  | cons p rest ih =>
    obtain ⟨k1, w⟩ := p
    by_cases h1 : k1 = k
    · subst h1
      simp [aset, alookup, hk]
    · simp [aset, h1, alookup, ih]

/-- Rewrites of the `"local"` placeholder never collide with it:
`temporary-session-{token}` has at least 18 characters. -/
theorem temporary_session_ne_local (s : String) :
    ("temporary-session-" ++ s) ≠ "local" := by
  intro h
  have hl := congrArg String.length h
  rw [String.length_append] at hl
  have h18 : ("temporary-session-").length = 18 := by decide
  have h5 : ("local").length = 5 := by decide
  rw [h18, h5] at hl
  omega

/-- The session token is recoverable from the rewritten identity. -/
theorem temporary_session_inj (s1 s2 : String)
    (h : ("temporary-session-" ++ s1) = ("temporary-session-" ++ s2)) : s1 = s2 := by
  have hd := congrArg String.data h
  simp only [String.data_append] at hd
  exact String.ext (List.append_cancel_left hd)

/-! ## C9: `get_last_assistant_message_obj` -/

/-- On a message list whose members all carry a `"role"` key, the reverse
scan is the first match of the role predicate. -/
theorem lastAssistantScan_eq_find (l : List Val)
    (h : ∀ m ∈ l, m.hasKey "role" = true) :
    lastAssistantScan l =
      .ok ((l.find? (fun m => m.getN "role" = Val.str "assistant")).getD (Val.dict [])) := by
  induction l with
  | nil => simp [lastAssistantScan, List.find?]
  | cons m rest ih =>
    have hm : m.hasKey "role" = true := h m (List.mem_cons_self m rest)
    have hrest : ∀ x ∈ rest, x.hasKey "role" = true :=
      fun x hx => h x (List.mem_cons_of_mem m hx)
    obtain ⟨r, hr⟩ : ∃ r, m.get "role" = some r := by
      cases m <;> simp_all [Val.hasKey, Val.get, Option.isSome_iff_exists]
    have hgn : m.getN "role" = r := by simp [Val.getN, hr]
    by_cases ha : r = Val.str "assistant"
    · simp [lastAssistantScan, hr, ha, List.find?, hgn]
    · simp [lastAssistantScan, hr, ha, List.find?, hgn, ih hrest]

/-- C9: for every list of message records that all carry a `"role"` field,
`get_last_assistant_message_obj` succeeds and returns the message at the
greatest position whose role equals `"assistant"` (the last element of the
role-filtered list), and the empty record when there is none. -/
theorem c9_last_assistant_obj (msgs : List Val)
    (h : ∀ m ∈ msgs, m.hasKey "role" = true) :
    get_last_assistant_message_obj msgs =
      .ok (((msgs.filter (fun m => m.getN "role" = Val.str "assistant")).getLast?).getD
        (Val.dict [])) := by
  have hrev : ∀ m ∈ msgs.reverse, m.hasKey "role" = true := by
    intro m hm
    exact h m (List.mem_reverse.mp hm)
  rw [get_last_assistant_message_obj, lastAssistantScan_eq_find msgs.reverse hrev]
  rw [← List.filter_head? _ msgs.reverse, List.filter_reverse,
    ← List.getLast?_eq_head?_reverse]

/-- Witness for C9 at a concrete four-message list: the second assistant
message is returned. -/
theorem c9_last_assistant_obj_witness :
    (∀ m ∈ [Val.dict [("role", Val.str "user"), ("content", Val.str "q1")],
            Val.dict [("role", Val.str "assistant"), ("content", Val.str "a1")],
            Val.dict [("role", Val.str "assistant"), ("content", Val.str "a2")],
            Val.dict [("role", Val.str "user"), ("content", Val.str "q2")]],
        m.hasKey "role" = true) ∧
    get_last_assistant_message_obj
        [Val.dict [("role", Val.str "user"), ("content", Val.str "q1")],
         Val.dict [("role", Val.str "assistant"), ("content", Val.str "a1")],
         Val.dict [("role", Val.str "assistant"), ("content", Val.str "a2")],
         Val.dict [("role", Val.str "user"), ("content", Val.str "q2")]] =
      .ok ((([Val.dict [("role", Val.str "user"), ("content", Val.str "q1")],
              Val.dict [("role", Val.str "assistant"), ("content", Val.str "a1")],
              Val.dict [("role", Val.str "assistant"), ("content", Val.str "a2")],
              Val.dict [("role", Val.str "user"), ("content", Val.str "q2")]].filter
        (fun m => m.getN "role" = Val.str "assistant")).getLast?).getD (Val.dict [])) :=
  ⟨by decide, c9_last_assistant_obj _ (by decide)⟩

/-! ## C6: the usage extractor -/

/-- The usage extractor as claim C6 words it: the input count is the
`prompt_eval_count` field when present, else `prompt_tokens`; the output
count is the `eval_count` field when present, else `completion_tokens`;
the `{input, output, unit}` record is reported exactly when both
resolve. -/
def extract_usage_claimed (assistant_message_obj : Val) : Val :=
  let info := assistant_message_obj.getD "usage" (Val.dict [])
  let input_tokens :=
    if info.hasKey "prompt_eval_count" then info.getN "prompt_eval_count"
    else info.getN "prompt_tokens"
  let output_tokens :=
    if info.hasKey "eval_count" then info.getN "eval_count"
    else info.getN "completion_tokens"
  if input_tokens ≠ Val.null ∧ output_tokens ≠ Val.null then
    Val.dict [("input", input_tokens), ("output", output_tokens),
              ("unit", Val.str "TOKENS")]
  else Val.null

/-- Counterexample to C6: on a usage object `{prompt_eval_count: 0,
eval_count: 5}` both counts resolve as the claim words it (the input count
is the present field `prompt_eval_count`, value `0`), so the claim demands
the pair `{input: 0, output: 5}`; the code instead coalesces with Python
`or`, treats the `0` as missing, and reports no usage at all. -/
theorem c6_counterexample :
    extract_usage (Val.dict [("role", Val.str "assistant"),
        ("usage", Val.dict [("prompt_eval_count", Val.int 0), ("eval_count", Val.int 5)])]) =
      Val.null ∧
    extract_usage_claimed (Val.dict [("role", Val.str "assistant"),
        ("usage", Val.dict [("prompt_eval_count", Val.int 0), ("eval_count", Val.int 5)])]) =
      Val.dict [("input", Val.int 0), ("output", Val.int 5), ("unit", Val.str "TOKENS")] ∧
    extract_usage (Val.dict [("role", Val.str "assistant"),
        ("usage", Val.dict [("prompt_eval_count", Val.int 0), ("eval_count", Val.int 5)])]) ≠
      extract_usage_claimed (Val.dict [("role", Val.str "assistant"),
        ("usage", Val.dict [("prompt_eval_count", Val.int 0), ("eval_count", Val.int 5)])]) := by
  refine ⟨by decide, by decide, by decide⟩

/-- C6 as amended: partial usage is never reported — the extractor yields
either nothing or a full `{input, output, unit: "TOKENS"}` record with
both counts non-`None`; and for nonzero counts either naming convention
yields the pair while a single resolvable count yields nothing.  (The
amendment: a count of `0` is falsy in Python, so it is treated as
unresolved and falls through to the alternative field.) -/
theorem c6_amended_usage :
    (∀ m : Val, extract_usage m = Val.null ∨
      ∃ i o, i ≠ Val.null ∧ o ≠ Val.null ∧
        extract_usage m =
          Val.dict [("input", i), ("output", o), ("unit", Val.str "TOKENS")]) ∧
    (∀ i o : Int, i ≠ 0 → o ≠ 0 →
      extract_usage (Val.dict [("role", Val.str "assistant"),
          ("usage", Val.dict [("prompt_eval_count", Val.int i), ("eval_count", Val.int o)])]) =
        Val.dict [("input", Val.int i), ("output", Val.int o), ("unit", Val.str "TOKENS")] ∧
      extract_usage (Val.dict [("role", Val.str "assistant"),
          ("usage", Val.dict [("prompt_tokens", Val.int i), ("completion_tokens", Val.int o)])]) =
        Val.dict [("input", Val.int i), ("output", Val.int o), ("unit", Val.str "TOKENS")] ∧
      extract_usage (Val.dict [("role", Val.str "assistant"),
          ("usage", Val.dict [("prompt_eval_count", Val.int i)])]) = Val.null ∧
      extract_usage (Val.dict [("role", Val.str "assistant"),
          ("usage", Val.dict [("eval_count", Val.int o)])]) = Val.null) := by
  constructor
  · intro m
    simp only [extract_usage]
    split
    · split
      · split
        · rename_i hcond
          right
          exact ⟨_, _, hcond.1, hcond.2, rfl⟩
        · left; rfl
      · left; rfl
    · left; rfl
  · intro i o hi ho
    refine ⟨?_, ?_, ?_, ?_⟩ <;>
      simp [extract_usage, truthy, Val.getD, Val.getN, Val.get, Val.isDict,
        dlookup, pyOr, hi, ho]

/-- Witness for the amended C6 at counts 5 and 3. -/
theorem c6_amended_usage_witness :
    (5 : Int) ≠ 0 ∧ (3 : Int) ≠ 0 ∧
    extract_usage (Val.dict [("role", Val.str "assistant"),
        ("usage", Val.dict [("prompt_tokens", Val.int 5), ("completion_tokens", Val.int 3)])]) =
      Val.dict [("input", Val.int 5), ("output", Val.int 3), ("unit", Val.str "TOKENS")] :=
  ⟨by decide, by decide, (c6_amended_usage.2 5 3 (by decide) (by decide)).2.1⟩

/-! ## C3: the "local" placeholder rewrite -/

/-- A non-`None` `.get(k)` result is an actual entry. -/
theorem Val.get_of_getN (m : Val) (k : String) (v : Val)
    (h : m.getN k = v) (hv : v ≠ Val.null) : m.get k = some v := by
  unfold Val.getN at h
  cases hg : m.get k with
  | none => rw [hg] at h; simp at h; exact absurd h.symm hv
  | some w => rw [hg] at h; simp at h; rw [h]

/-- A conditional write to another key does not change a `.get`. -/
theorem getN_condSet_ne (c : Prop) [Decidable c] (m : Val) (k k2 : String)
    (v : Val) (h : k2 ≠ k) :
    (if c then m.set k v else m).getN k2 = m.getN k2 := by
  split
  · exact Val.getN_set_ne m k k2 v h
  · rfl

/-- A conditional write to another key does not change `in`. -/
theorem hasKey_condSet_ne (c : Prop) [Decidable c] (m : Val) (k k2 : String)
    (v : Val) (h : k2 ≠ k) :
    (if c then m.set k v else m).hasKey k2 = m.hasKey k2 := by
  split
  · exact Val.hasKey_set_ne m k k2 v h
  · rfl

/-- A conditional write keeps a dict a dict. -/
theorem isDict_condSet (c : Prop) [Decidable c] (m : Val) (k : String) (v : Val) :
    (if c then m.set k v else m).isDict = m.isDict := by
  split
  · exact Val.isDict_set m k v
  · rfl

/-- A dict literal is a dict. -/
theorem Val.isDict_dictLit (fs : List (String × Val)) : (Val.dict fs).isDict = true := rfl

/-- The synthesized metadata record always carries the resolved chat id
under `"chat_id"`, and is a dict. -/
theorem extract_metadata3_fields_spec (body chat_id : Val) :
    (extract_metadata3_fields body chat_id).getN "chat_id" = chat_id ∧
    (extract_metadata3_fields body chat_id).hasKey "chat_id" = true ∧
    (extract_metadata3_fields body chat_id).isDict = true := by
  unfold extract_metadata3_fields
  cases hmod : body.getN "model" <;>
    refine ⟨?_, ?_, ?_⟩ <;>
    simp [hmod, getN_condSet_ne, hasKey_condSet_ne, isDict_condSet,
      Val.getN_set_self, Val.hasKey_set_self, Val.isDict_set, Val.isDict_dictLit]

/-- On a body with no `"metadata"` key, `_extract_metadata` synthesizes
the record around the resolved chat id. -/
theorem extract_metadata3_synth (st : PState) (body : Val)
    (h : body.hasKey "metadata" = false) :
    extract_metadata3 st body = ((extract_metadata3_cid st body).2,
      extract_metadata3_fields body (extract_metadata3_cid st body).1) := by
  rcases hcid : extract_metadata3_cid st body with ⟨cid, st1⟩
  simp [extract_metadata3, h, hcid]

/-- Shared default valves for witnesses and counterexamples. -/
def defaultValves : Valves := {}

/-- The all-successful backend oracle. -/
def noFail : Nat → Bool := fun _ => false

/-- The always-failing backend oracle. -/
def allFail : Nat → Bool := fun _ => true

/-- The fresh adapter state (empty registries, no calls yet). -/
def emptyState : PState := {}

/-- Counterexample to C3: in the defensive variant a body whose chat id is
the literal `"local"` and which carries no session token anywhere is NOT
rewritten — `_extract_metadata` keeps `"local"`, and the inlet then keys
both the model registry and the trace store by the literal placeholder. -/
theorem c3_counterexample :
    ((extract_metadata3 emptyState
        (Val.dict [("chat_id", Val.str "local"), ("model", Val.str "m"),
                   ("messages", Val.list [])])).2).getN "chat_id" = Val.str "local" ∧
    (inlet3 defaultValves noFail emptyState
        (Val.dict [("chat_id", Val.str "local"), ("model", Val.str "m"),
                   ("messages", Val.list [])]) Val.null).1.chat_traces =
      [(Val.str "local", 0)] ∧
    (alookup (inlet3 defaultValves noFail emptyState
        (Val.dict [("chat_id", Val.str "local"), ("model", Val.str "m"),
                   ("messages", Val.list [])]) Val.null).1.model_names
      (Val.str "local")).isSome = true := by
  refine ⟨by decide, by decide, by decide⟩

/-- C3 as amended: the strict variant always rewrites a `"local"` chat id
to `temporary-session-{token}` (token = the metadata session id, else a
fresh uuid), which never equals the placeholder, and distinct session
tokens give distinct rewritten identities; the defensive variant rewrites
only when a session token is present in the body (else the literal
`"local"` itself remains the correlation key, as the counterexample
shows). -/
theorem c3_amended_local_rewrite :
    (∀ st body, (body.getD "metadata" (Val.dict [])).getN "chat_id" = Val.str "local" →
      ∃ s, (inlet1_meta st body).2.1 = Val.str ("temporary-session-" ++ s) ∧
        (inlet1_meta st body).2.1 ≠ Val.str "local") ∧
    (∀ st st2 b1 b2 s1 s2,
      (b1.getD "metadata" (Val.dict [])).getN "chat_id" = Val.str "local" →
      (b1.getD "metadata" (Val.dict [])).getN "session_id" = Val.str s1 →
      (b2.getD "metadata" (Val.dict [])).getN "chat_id" = Val.str "local" →
      (b2.getD "metadata" (Val.dict [])).getN "session_id" = Val.str s2 →
      s1 ≠ s2 →
      (inlet1_meta st b1).2.1 ≠ (inlet1_meta st2 b2).2.1) ∧
    (∀ st body s, body.hasKey "metadata" = false →
      body.getN "chat_id" = Val.str "local" →
      body.getN "session_id" = Val.str s → s ≠ "" →
      ((extract_metadata3 st body).2).getN "chat_id" =
        Val.str ("temporary-session-" ++ s)) := by
  refine ⟨?_, ?_, ?_⟩
  · intro st body h
    have hg : (body.getD "metadata" (Val.dict [])).get "chat_id" = some (Val.str "local") :=
      Val.get_of_getN _ _ _ h (by decide)
    simp only [Val.getD] at hg
    refine ⟨pyStr ((body.getD "metadata" (Val.dict [])).getD "session_id"
      (Val.str ("uuid-" ++ toString (st.uuidCtr + 1)))), ?_, ?_⟩
    · simp [inlet1_meta, uuid4, Val.getD, hg]
    · simp [inlet1_meta, uuid4, Val.getD, hg]
      intro hh
      exact temporary_session_ne_local _ hh
  · intro st st2 b1 b2 s1 s2 h1c h1s h2c h2s hne
    have hg1 : (b1.getD "metadata" (Val.dict [])).get "chat_id" = some (Val.str "local") :=
      Val.get_of_getN _ _ _ h1c (by decide)
    have hg2 : (b2.getD "metadata" (Val.dict [])).get "chat_id" = some (Val.str "local") :=
      Val.get_of_getN _ _ _ h2c (by decide)
    have hs1 : (b1.getD "metadata" (Val.dict [])).get "session_id" = some (Val.str s1) :=
      Val.get_of_getN _ _ _ h1s (fun hh => Val.noConfusion hh)
    have hs2 : (b2.getD "metadata" (Val.dict [])).get "session_id" = some (Val.str s2) :=
      Val.get_of_getN _ _ _ h2s (fun hh => Val.noConfusion hh)
    simp only [Val.getD] at hg1 hg2 hs1 hs2
    simp [inlet1_meta, uuid4, Val.getD, hg1, hg2, hs1, hs2, pyStr]
    intro hh
    exact hne (temporary_session_inj _ _ hh)
  · intro st body s hmeta hcid hsess hs
    have hb : (body.getD "metadata" (Val.dict [])) = Val.dict [] := by
      cases body <;> simp_all [Val.hasKey, Val.getD, Val.get, Option.isSome_iff_exists]
    have hgc : body.get "chat_id" = some (Val.str "local") :=
      Val.get_of_getN _ _ _ hcid (by decide)
    have hgs : body.get "session_id" = some (Val.str s) :=
      Val.get_of_getN _ _ _ hsess (fun hh => Val.noConfusion hh)
    have hse : s.isEmpty = false := by
      cases he : s.isEmpty
      · rfl
      · exact absurd ((String.isEmpty_iff s).mp he) hs
    rw [extract_metadata3_synth st body hmeta]
    have hfix := (extract_metadata3_fields_spec body (extract_metadata3_cid st body).1).1
    refine hfix.trans ?_
    have hloc : ("local" : String).isEmpty = false := by decide
    simp only [Val.getD] at hb
    simp [extract_metadata3_cid, Val.getN, Val.getD, hgc, hgs, hb, truthy, pyOr,
      hse, hloc, pyStr]

/-- Witness for the amended C3: a `"local"` metadata chat id is rewritten
by the strict inlet; session tokens `"s1"` and `"s2"` give different
identities; the defensive extractor rewrites when the body carries the
token `"tok"`. -/
theorem c3_amended_local_rewrite_witness :
    (∃ s, (inlet1_meta emptyState
        (Val.dict [("metadata", Val.dict [("chat_id", Val.str "local")])])).2.1 =
          Val.str ("temporary-session-" ++ s) ∧
      (inlet1_meta emptyState
        (Val.dict [("metadata", Val.dict [("chat_id", Val.str "local")])])).2.1 ≠
          Val.str "local") ∧
    (inlet1_meta emptyState (Val.dict [("metadata",
        Val.dict [("chat_id", Val.str "local"), ("session_id", Val.str "s1")])])).2.1 ≠
      (inlet1_meta emptyState (Val.dict [("metadata",
        Val.dict [("chat_id", Val.str "local"), ("session_id", Val.str "s2")])])).2.1 ∧
    ((extract_metadata3 emptyState
        (Val.dict [("chat_id", Val.str "local"), ("session_id", Val.str "tok")])).2).getN
      "chat_id" = Val.str ("temporary-session-" ++ "tok") :=
  ⟨c3_amended_local_rewrite.1 emptyState _ (by decide),
   c3_amended_local_rewrite.2.1 emptyState emptyState _ _ "s1" "s2"
     (by decide) (by decide) (by decide) (by decide) (by decide),
   c3_amended_local_rewrite.2.2 emptyState _ "tok"
     (by decide) (by decide) (by decide) (by decide)⟩

/-! ## Stage characterizations of the strict inlet -/

/-- A backend call attempt only touches the call and event logs. -/
theorem tryCall_state (f : Nat → Bool) (st : PState) (ev : BEvent) :
    (tryCall f st ev).2.model_names = st.model_names ∧
    (tryCall f st ev).2.chat_traces = st.chat_traces ∧
    (tryCall f st ev).2.nextTrace = st.nextTrace ∧
    (tryCall f st ev).2.uuidCtr = st.uuidCtr ∧
    (tryCall f st ev).2.calls = st.calls ++ [ev] := by
  unfold tryCall
  split <;> simp

/-- The registries after the record-emission step of `inlet1`. -/
theorem inlet1_record_state (cfg : Valves) (f : Nat → Bool) (st : PState) (tid : Nat)
    (bodyM chat_id metadata1 task_name : Val) (tags : List Val) :
    (inlet1_record cfg f st tid bodyM chat_id metadata1 task_name tags).1.model_names = st.model_names ∧
    (inlet1_record cfg f st tid bodyM chat_id metadata1 task_name tags).1.chat_traces = st.chat_traces := by
  unfold inlet1_record
  split
  · simp only [uuid4, tryCall]
    split <;> simp
  · simp only [uuid4, tryCall]
    split <;> simp

/-- A successful record-emission step returns the body whose `"metadata"`
entry is the enriched record: type and interface always, plus the resolved
model id/name on generation tasks. -/
theorem inlet1_record_ok (cfg : Valves) (f : Nat → Bool) (st : PState) (tid : Nat)
    (bodyM chat_id metadata1 task_name : Val) (tags : List Val) :
    ∀ b', (inlet1_record cfg f st tid bodyM chat_id metadata1 task_name tags).2 = .ok b' →
      ∃ mid mname,
        (task_name = Val.str "llm_response" ∧
          b' = bodyM.set "metadata"
            ((((metadata1.set "type" task_name).set "interface" (Val.str "open-webui")).set
              "model_id" mid).set "model_name" mname)) ∨
        (task_name ≠ Val.str "llm_response" ∧
          b' = bodyM.set "metadata"
            ((metadata1.set "type" task_name).set "interface" (Val.str "open-webui"))) := by
  intro b' hb'
  unfold inlet1_record at hb'
  revert hb'
  split
  next htask =>
    simp only [uuid4, tryCall]
    split
    · intro hb'
      simp at hb'
    · intro hb'
      simp only at hb'
      simp at hb'
      subst hb'
      exact ⟨_, _, Or.inl ⟨htask, rfl⟩⟩
  next htask =>
    simp only [uuid4, tryCall]
    split
    · intro hb'
      simp at hb'
    · intro hb'
      simp at hb'
      subst hb'
      exact ⟨Val.null, Val.null, Or.inr ⟨htask, rfl⟩⟩

/-- `inlet1` lines 109-118 neither call the backend nor touch the
registries, and the metadata they return is the original metadata with the
resolved chat id stored under `"chat_id"`. -/
theorem inlet1_meta_spec (st : PState) (body : Val) :
    (inlet1_meta st body).2.2 =
      (body.getD "metadata" (Val.dict [])).set "chat_id" (inlet1_meta st body).2.1 ∧
    (inlet1_meta st body).1.chat_traces = st.chat_traces ∧
    (inlet1_meta st body).1.model_names = st.model_names ∧
    (inlet1_meta st body).1.calls = st.calls ∧
    (inlet1_meta st body).1.events = st.events := by
  unfold inlet1_meta
  simp only [uuid4]
  split <;> simp

/-- The model-registry update of `inlet1` registers a record under the
chat id and touches nothing else. -/
theorem inlet1_models_spec (st : PState) (chat_id metadata1 body : Val) :
    (alookup (inlet1_models st chat_id metadata1 body).model_names chat_id).isSome = true ∧
    (inlet1_models st chat_id metadata1 body).chat_traces = st.chat_traces ∧
    (inlet1_models st chat_id metadata1 body).calls = st.calls ∧
    (inlet1_models st chat_id metadata1 body).events = st.events ∧
    (inlet1_models st chat_id metadata1 body).nextTrace = st.nextTrace ∧
    (inlet1_models st chat_id metadata1 body).uuidCtr = st.uuidCtr := by
  unfold inlet1_models
  cases halo : alookup st.model_names chat_id
  · simp only [halo]
    split <;> simp [alookup_aset_self]
  · simp only [halo]
    split <;> simp [alookup_aset_self]

/-- The trace get-or-create step of `inlet1` does not touch the model
registry. -/
theorem inlet1_trace_models (f : Nat → Bool) (st : PState) (cid payload : Val)
    (tags : List Val) :
    (inlet1_trace f st cid payload tags).1.model_names = st.model_names := by
  unfold inlet1_trace
  cases halo : alookup st.chat_traces cid with
  | none =>
    simp only [uuid4, tryCall]
    split <;> simp
  | some tid =>
    split
    next heq => exact absurd heq (by simp)
    next tid2 heq =>
      split
      · simp
      · simp only [tryCall]
        split <;> simp

/-- The tail of the strict inlet after the get-or-create step: an error
propagates; a success hands the handle to the record-emission step. -/
theorem inlet1_tail_spec (cfg : Valves) (f : Nat → Bool) (bodyM cid m1 task : Val)
    (tags : List Val) (tr : PState × Except PErr Nat) (st' : PState) (b' : Val)
    (h : inlet1_tail cfg f bodyM cid m1 task tags tr = (st', .ok b')) :
    st'.model_names = tr.1.model_names ∧
    ∃ mF, b' = bodyM.set "metadata" mF ∧
      (∃ mid mname,
        (task = Val.str "llm_response" ∧
          mF = (((m1.set "type" task).set "interface" (Val.str "open-webui")).set
            "model_id" mid).set "model_name" mname) ∨
        (task ≠ Val.str "llm_response" ∧
          mF = (m1.set "type" task).set "interface" (Val.str "open-webui"))) := by
  rcases tr with ⟨st3, r⟩
  cases r with
  | error e => simp [inlet1_tail] at h
  | ok tid =>
    simp only [inlet1_tail] at h
    constructor
    · have h1 := congrArg Prod.fst h
      simp only at h1
      rw [← h1]
      exact (inlet1_record_state cfg f st3 tid bodyM cid m1 task tags).1
    · have h2 := congrArg Prod.snd h
      simp only at h2
      obtain ⟨mid, mname, hsh⟩ := inlet1_record_ok cfg f st3 tid bodyM cid m1 task tags b' h2
      cases hsh with
      | inl hx => exact ⟨_, hx.2, ⟨mid, mname, Or.inl ⟨hx.1, rfl⟩⟩⟩
      | inr hx => exact ⟨_, hx.2, ⟨Val.null, Val.null, Or.inr ⟨hx.1, rfl⟩⟩⟩

/-- A successful strict inlet validated the body, updated the model
registry under the resolved chat id, and returned the body whose
`"metadata"` entry is the enriched record. -/
theorem inlet1_ok_spec (cfg : Valves) (f : Nat → Bool) (st : PState) (body user : Val)
    (st' : PState) (b' : Val) (h : inlet1 cfg f st body user = (st', .ok b')) :
    body.isDict = true ∧
    (body.getD "metadata" (Val.dict [])).isDict = true ∧
    missing_keys body = [] ∧
    st'.model_names = (inlet1_models (inlet1_meta st body).1 (inlet1_meta st body).2.1
      (inlet1_meta st body).2.2 body).model_names ∧
    ∃ mF,
      b' = (body.set "metadata" (inlet1_meta st body).2.2).set "metadata" mF ∧
      (∃ mid mname,
        ((((inlet1_meta st body).2.2).getD "task" (Val.str "user_response")) =
            Val.str "llm_response" ∧
          mF = (((((inlet1_meta st body).2.2).set "type"
            (((inlet1_meta st body).2.2).getD "task" (Val.str "user_response"))).set "interface"
            (Val.str "open-webui")).set "model_id" mid).set "model_name" mname) ∨
        ((((inlet1_meta st body).2.2).getD "task" (Val.str "user_response")) ≠
            Val.str "llm_response" ∧
          mF = (((inlet1_meta st body).2.2).set "type"
            (((inlet1_meta st body).2.2).getD "task" (Val.str "user_response"))).set "interface"
            (Val.str "open-webui"))) := by
  rcases hme : inlet1_meta st body with ⟨st1, cid, m1⟩
  unfold inlet1 at h
  rw [hme] at h
  split at h
  · simp at h
  next hbody =>
  split at h
  · simp at h
  next hmeta =>
  split at h
  next st1b cidb m1b heqb =>
  injection heqb with e1 e2
  injection e2 with e2a e2b
  subst e1
  subst e2a
  subst e2b
  split at h
  next hmiss => simp at h
  next hmiss =>
    obtain ⟨hmods, mF, hbshape, hmF⟩ := inlet1_tail_spec cfg f _ _ _ _ _ _ _ _ h
    have hb : body.isDict = true := by
      by_cases hx : body.isDict = true
      · exact hx
      · exact absurd (fun hc => hx hc) hbody
    refine ⟨hb, ?_, ?_, ?_, ?_⟩
    · by_cases hx : (body.getD "metadata" (Val.dict [])).isDict = true
      · exact hx
      · exact absurd (fun hc => hx hc) hmeta
    · by_cases hx : missing_keys body = []
      · exact hx
      · exact absurd hx (fun hc => hmiss hc)
    · rw [hmods, inlet1_trace_models]
    · exact ⟨mF, hbshape, hmF⟩

/-! ## C4: the strict inlet validation -/

/-- Counterexample to C4: the strict inlet on an empty body raises the
validation error, but the model registry has already been updated (an
entry under the freshly generated chat id), so the adapter state is not
left unmodified. -/
theorem c4_counterexample :
    (inlet1 defaultValves noFail emptyState (Val.dict []) Val.null).2 =
      .error (.valueError "Error: Missing keys in request body: model, messages") ∧
    (inlet1 defaultValves noFail emptyState (Val.dict []) Val.null).1.model_names ≠ [] ∧
    emptyState.model_names = [] := by
  refine ⟨by decide, by decide, rfl⟩

/-- C4 as amended: on a body missing `"model"` or `"messages"`, the strict
inlet raises exactly the `ValueError` naming the missing keys, before any
backend call (the call log, the event log and the trace store are exactly
as before), but after the model-registry write of lines 122-130, which is
not rolled back: the registry ends with an entry under the resolved chat
id. -/
theorem c4_amended_strict_validation (cfg : Valves) (f : Nat → Bool) (st : PState)
    (body user : Val) (hb : body.isDict = true)
    (hm : (body.getD "metadata" (Val.dict [])).isDict = true)
    (hmiss : missing_keys body ≠ []) :
    (inlet1 cfg f st body user).2 = .error (.valueError
      ("Error: Missing keys in request body: " ++
        String.intercalate ", " (missing_keys body))) ∧
    (inlet1 cfg f st body user).1.chat_traces = st.chat_traces ∧
    (inlet1 cfg f st body user).1.calls = st.calls ∧
    (inlet1 cfg f st body user).1.events = st.events ∧
    (alookup (inlet1 cfg f st body user).1.model_names
      (inlet1_meta st body).2.1).isSome = true := by
  rcases hme : inlet1_meta st body with ⟨st1, cid, m1⟩
  have hms := inlet1_models_spec st1 cid m1 body
  have hmeta_spec := inlet1_meta_spec st body
  rw [hme] at hmeta_spec
  simp only at hmeta_spec
  refine ⟨?_, ?_, ?_, ?_, ?_⟩ <;>
    simp [inlet1, hme, hb, hm, hmiss, hms.1, hms.2.1, hms.2.2.1, hms.2.2.2.1,
      hmeta_spec.2.1, hmeta_spec.2.2.1, hmeta_spec.2.2.2.1, hmeta_spec.2.2.2.2]

/-- Witness for the amended C4 at the empty body. -/
theorem c4_amended_strict_validation_witness :
    (Val.dict []).isDict = true ∧
    ((Val.dict []).getD "metadata" (Val.dict [])).isDict = true ∧
    missing_keys (Val.dict []) ≠ [] ∧
    (inlet1 defaultValves noFail emptyState (Val.dict []) Val.null).2 =
      .error (.valueError ("Error: Missing keys in request body: " ++
        String.intercalate ", " (missing_keys (Val.dict [])))) ∧
    (inlet1 defaultValves noFail emptyState (Val.dict []) Val.null).1.calls =
      emptyState.calls :=
  ⟨by decide, by decide, by decide,
   (c4_amended_strict_validation defaultValves noFail emptyState (Val.dict []) Val.null
     (by decide) (by decide) (by decide)).1,
   (c4_amended_strict_validation defaultValves noFail emptyState (Val.dict []) Val.null
     (by decide) (by decide) (by decide)).2.2.1⟩

/-! ## C5: metadata carries the conversation id used for keying -/

/-- The trace get-or-create step of the defensive inlet does not touch the
model registry. -/
theorem inlet3_getTrace_models (f : Nat → Bool) (st : PState) (cid payload : Val)
    (tags : List Val) :
    (inlet3_getTrace f st cid payload tags).1.model_names = st.model_names := by
  unfold inlet3_getTrace
  cases halo : alookup st.chat_traces cid with
  | none =>
    simp only [tryCall]
    split <;> simp
  | some tid =>
    split
    next heq => exact absurd heq (by simp)
    next tid2 heq =>
      split
      · simp
      · simp only [tryCall]
        split <;> simp

/-- The defensive inlet always ends with the model registry carrying an
entry under the resolved conversation id (the `"chat_id"` of the record
that metadata extraction produced). -/
theorem inlet3_registry_keyed (cfg : Valves) (f : Nat → Bool) (st : PState)
    (body user : Val) (hb : body.isDict = true)
    (hm : ((extract_metadata3 st body).2).isDict = true) :
    (alookup ((inlet3 cfg f st body user).1).model_names
      (((extract_metadata3 st body).2).getN "chat_id")).isSome = true := by
  rcases hext : extract_metadata3 st body with ⟨st1, m⟩
  rw [hext] at hm
  unfold inlet3
  rw [hext]
  simp only [hb, hm, not_true, eq_self_iff_true, ite_false, ite_true, Bool.not_true,
    Bool.false_eq_true, if_false, if_true]
  split
  next st3 heq =>
    have hpres := congrArg (fun p => p.1.model_names) heq
    simp only at hpres
    rw [inlet3_getTrace_models] at hpres
    simp [← hpres, alookup_aset_self]
  next st3 tid heq =>
    have hpres := congrArg (fun p => p.1.model_names) heq
    simp only at hpres
    rw [inlet3_getTrace_models] at hpres
    split
    · simp only [uuid4, tryCall]
      split <;> simp [← hpres, alookup_aset_self]
    · simp only [uuid4, tryCall]
      split <;> simp [← hpres, alookup_aset_self]

/-- Counterexample to C5: when the body already carries a metadata
sub-object, `_extract_metadata` returns it as-is — for `{"metadata": {}}`
the produced record has no `chat_id` key at all, and the defensive inlet
then keys the model registry under the absent value `None`. -/
theorem c5_counterexample :
    ((extract_metadata3 emptyState (Val.dict [("metadata", Val.dict [])])).2).hasKey
      "chat_id" = false ∧
    (alookup (inlet3 defaultValves noFail emptyState
        (Val.dict [("metadata", Val.dict []), ("model", Val.str "m"),
                   ("messages", Val.list [])]) Val.null).1.model_names
      Val.null).isSome = true := by
  refine ⟨by decide, by decide⟩

/-- C5 as amended: when the defensive variant synthesizes the metadata
(no `"metadata"` key on the body) the record always carries `"chat_id"`;
in every case the registry is keyed by exactly the record's `"chat_id"`
value (the absent value `None` when the as-is record lacks the key); and
in the strict variant every successful inlet returns a body whose metadata
carries `"chat_id"`, with the model registry keyed by exactly that
value. -/
theorem c5_amended_metadata_invariant :
    (∀ st body, body.hasKey "metadata" = false →
      ((extract_metadata3 st body).2).hasKey "chat_id" = true) ∧
    (∀ cfg f st body user, body.isDict = true →
      ((extract_metadata3 st body).2).isDict = true →
      (alookup ((inlet3 cfg f st body user).1).model_names
        (((extract_metadata3 st body).2).getN "chat_id")).isSome = true) ∧
    (∀ cfg f st body user st' b', inlet1 cfg f st body user = (st', .ok b') →
      (b'.getN "metadata").hasKey "chat_id" = true ∧
      (alookup st'.model_names ((b'.getN "metadata").getN "chat_id")).isSome = true) := by
  refine ⟨?_, ?_, ?_⟩
  · intro st body h
    rw [extract_metadata3_synth st body h]
    exact (extract_metadata3_fields_spec body (extract_metadata3_cid st body).1).2.1
  · intro cfg f st body user hb hm
    exact inlet3_registry_keyed cfg f st body user hb hm
  · intro cfg f st body user st' b' h
    obtain ⟨hb, hmeta, hmiss, hmods, mF, hbsh, hmFex⟩ := inlet1_ok_spec cfg f st body user st' b' h
    obtain ⟨mid, mname, hmFsh⟩ := hmFex
    have hX : (body.set "metadata" (inlet1_meta st body).2.2).isDict = true := by
      rw [Val.isDict_set]
      exact hb
    have hgetmF : b'.getN "metadata" = mF := by
      rw [hbsh]
      exact Val.getN_set_self _ hX "metadata" mF
    have hm1 : (inlet1_meta st body).2.2 =
        (body.getD "metadata" (Val.dict [])).set "chat_id" (inlet1_meta st body).2.1 :=
      (inlet1_meta_spec st body).1
    have hm1c : ((inlet1_meta st body).2.2).getN "chat_id" = (inlet1_meta st body).2.1 := by
      rw [hm1]
      exact Val.getN_set_self _ hmeta "chat_id" _
    have hm1k : ((inlet1_meta st body).2.2).hasKey "chat_id" = true := by
      rw [hm1]
      exact Val.hasKey_set_self _ hmeta "chat_id" _
    have hmFc : mF.getN "chat_id" = (inlet1_meta st body).2.1 := by
      cases hmFsh with
      | inl hx =>
        rw [hx.2, Val.getN_set_ne _ _ _ _ (by decide), Val.getN_set_ne _ _ _ _ (by decide),
          Val.getN_set_ne _ _ _ _ (by decide), Val.getN_set_ne _ _ _ _ (by decide)]
        exact hm1c
      | inr hx =>
        rw [hx.2, Val.getN_set_ne _ _ _ _ (by decide), Val.getN_set_ne _ _ _ _ (by decide)]
        exact hm1c
    have hmFk : mF.hasKey "chat_id" = true := by
      cases hmFsh with
      | inl hx =>
        rw [hx.2, Val.hasKey_set_ne _ _ _ _ (by decide), Val.hasKey_set_ne _ _ _ _ (by decide),
          Val.hasKey_set_ne _ _ _ _ (by decide), Val.hasKey_set_ne _ _ _ _ (by decide)]
        exact hm1k
      | inr hx =>
        rw [hx.2, Val.hasKey_set_ne _ _ _ _ (by decide), Val.hasKey_set_ne _ _ _ _ (by decide)]
        exact hm1k
    refine ⟨by rw [hgetmF]; exact hmFk, ?_⟩
    rw [hgetmF, hmFc, hmods]
    exact (inlet1_models_spec (inlet1_meta st body).1 (inlet1_meta st body).2.1
      (inlet1_meta st body).2.2 body).1

/-- Witness for the amended C5: the synthesized record of a body without
metadata carries `chat_id`; after a defensive inlet the registry is keyed
by it; a successful strict inlet run is keyed consistently too. -/
theorem c5_amended_metadata_invariant_witness :
    ((extract_metadata3 emptyState (Val.dict [("chat_id", Val.str "c7")])).2).hasKey
      "chat_id" = true ∧
    (alookup ((inlet3 defaultValves noFail emptyState
        (Val.dict [("chat_id", Val.str "c7"), ("model", Val.str "m"),
                   ("messages", Val.list [])]) Val.null).1).model_names
      (((extract_metadata3 emptyState
        (Val.dict [("chat_id", Val.str "c7"), ("model", Val.str "m"),
                   ("messages", Val.list [])])).2).getN "chat_id")).isSome = true ∧
    ∀ st' b', inlet1 defaultValves noFail emptyState
        (Val.dict [("model", Val.str "m"), ("messages", Val.list []),
                   ("metadata", Val.dict [("chat_id", Val.str "c7")])]) Val.null =
        (st', .ok b') →
      (b'.getN "metadata").hasKey "chat_id" = true :=
  ⟨c5_amended_metadata_invariant.1 emptyState _ (by decide),
   c5_amended_metadata_invariant.2.1 defaultValves noFail emptyState _ Val.null
     (by decide) (by decide),
   fun st' b' h => (c5_amended_metadata_invariant.2.2 defaultValves noFail emptyState
     _ Val.null st' b' h).1⟩

/-! ## C2: trace get-or-create semantics -/

/-- Whether a backend call is the open-trace call. -/
def BEvent.isTraceOpen : BEvent → Bool
  | .traceOpen _ _ => true
  | _ => false

/-- Chat-id resolution of `_extract_metadata` only draws uuids. -/
theorem extract_metadata3_cid_state (st : PState) (body : Val) :
    (extract_metadata3_cid st body).2.chat_traces = st.chat_traces ∧
    (extract_metadata3_cid st body).2.calls = st.calls ∧
    (extract_metadata3_cid st body).2.model_names = st.model_names := by
  unfold extract_metadata3_cid
  simp only [uuid4]
  split
  · simp
  · split <;> simp

/-- `_extract_metadata` only draws uuids: registries and logs are
untouched. -/
theorem extract_metadata3_state (st : PState) (body : Val) :
    (extract_metadata3 st body).1.chat_traces = st.chat_traces ∧
    (extract_metadata3 st body).1.calls = st.calls ∧
    (extract_metadata3 st body).1.model_names = st.model_names := by
  unfold extract_metadata3
  split
  · simp
  · rcases hc : extract_metadata3_cid st body with ⟨cid, st1⟩
    have hs := extract_metadata3_cid_state st body
    rw [hc] at hs
    simpa using hs

/-- Get-or-create on a registered conversation: the stored handle is
returned, the trace store is unchanged, and no open-trace call is
attempted (only a tag update may be). -/
theorem inlet3_getTrace_registered (f : Nat → Bool) (st : PState) (cid payload : Val)
    (tags : List Val) (tid : Nat) (h : alookup st.chat_traces cid = some tid) :
    (inlet3_getTrace f st cid payload tags).2 = some tid ∧
    (inlet3_getTrace f st cid payload tags).1.chat_traces = st.chat_traces ∧
    ((inlet3_getTrace f st cid payload tags).1.calls.countP BEvent.isTraceOpen) =
      st.calls.countP BEvent.isTraceOpen := by
  unfold inlet3_getTrace
  simp only [h]
  split
  · simp
  · simp only [tryCall]
    split <;> simp [List.countP_append, List.countP_cons, BEvent.isTraceOpen]

/-- Get-or-create on a fresh conversation with a successful backend open:
exactly one open-trace call is attempted and the handle is registered
under the conversation id, so the next call reuses it. -/
theorem inlet3_getTrace_fresh_ok (f : Nat → Bool) (st : PState) (cid payload : Val)
    (tags : List Val) (h : alookup st.chat_traces cid = none)
    (hf : f st.calls.length = false) :
    (inlet3_getTrace f st cid payload tags).2 = some st.nextTrace ∧
    alookup (inlet3_getTrace f st cid payload tags).1.chat_traces cid = some st.nextTrace ∧
    ((inlet3_getTrace f st cid payload tags).1.calls.countP BEvent.isTraceOpen) =
      st.calls.countP BEvent.isTraceOpen + 1 := by
  unfold inlet3_getTrace
  simp only [h]
  simp only [tryCall, hf]
  simp [alookup_aset_self, List.countP_append, List.countP_cons, BEvent.isTraceOpen]

/-- Get-or-create on a fresh conversation with a failing backend open: no
handle is produced and nothing is cached for the conversation, so a later
call may retry the open. -/
theorem inlet3_getTrace_fresh_fail (f : Nat → Bool) (st : PState) (cid payload : Val)
    (tags : List Val) (h : alookup st.chat_traces cid = none)
    (hf : f st.calls.length = true) :
    (inlet3_getTrace f st cid payload tags).2 = none ∧
    (inlet3_getTrace f st cid payload tags).1.chat_traces = st.chat_traces := by
  unfold inlet3_getTrace
  simp only [h]
  simp only [tryCall, hf]
  simp

/-- The strict variant of the same step: the failed open raises
`backendError` and likewise caches nothing. -/
theorem inlet1_trace_fresh_fail (f : Nat → Bool) (st : PState) (cid payload : Val)
    (tags : List Val) (h : alookup st.chat_traces cid = none)
    (hf : f st.calls.length = true) :
    (inlet1_trace f st cid payload tags).2 = .error .backendError ∧
    (inlet1_trace f st cid payload tags).1.chat_traces = st.chat_traces := by
  unfold inlet1_trace
  simp only [h]
  simp only [tryCall, hf]
  simp

/-- When the backend open fails on a fresh conversation, the defensive
inlet still returns the chat body (no exception) and leaves the
conversation unregistered, so the next call retries the open. -/
theorem inlet3_open_fail_returns_body (cfg : Valves) (f : Nat → Bool) (st : PState)
    (body user : Val) (hb : body.isDict = true)
    (hm : ((extract_metadata3 st body).2).isDict = true)
    (hreg : alookup st.chat_traces (((extract_metadata3 st body).2).getN "chat_id") = none)
    (hf : f st.calls.length = true) :
    alookup ((inlet3 cfg f st body user).1).chat_traces
      (((extract_metadata3 st body).2).getN "chat_id") = none ∧
    ∃ b', (inlet3 cfg f st body user).2 = .ok b' := by
  rcases hext : extract_metadata3 st body with ⟨st1, m⟩
  rw [hext] at hm hreg
  simp only at hm hreg
  have hste := extract_metadata3_state st body
  rw [hext] at hste
  simp only at hste
  obtain ⟨hct, hcl, hmn⟩ := hste
  unfold inlet3
  rw [hext]
  simp only [hb, hm, not_true, eq_self_iff_true, ite_false, ite_true, Bool.not_true,
    Bool.false_eq_true, if_false, if_true]
  unfold inlet3_getTrace
  simp only [hct, hreg, tryCall, hcl, hf]
  simp [hct, hreg]

/-- Counterexample to C2: in the strict variant a failing open-trace call
does NOT return the chat body — the inlet re-raises the backend error
(crashing the hosting call), although the conversation is indeed left
unregistered. -/
theorem c2_counterexample :
    (inlet1 defaultValves allFail emptyState
      (Val.dict [("model", Val.str "m"), ("messages", Val.list []),
                 ("metadata", Val.dict [("chat_id", Val.str "c1")])]) Val.null).2 =
      .error .backendError ∧
    (inlet1 defaultValves allFail emptyState
      (Val.dict [("model", Val.str "m"), ("messages", Val.list []),
                 ("metadata", Val.dict [("chat_id", Val.str "c1")])]) Val.null).1.chat_traces =
      [] := by
  refine ⟨by decide, by decide⟩

/-- C2 as amended: get-or-create returns the already-registered handle
without a new open call; on a fresh conversation a successful open is
attempted exactly once and registered (so later calls reuse it); a failed
open caches nothing, so a later call with the same id retries; the failing
call still returns the chat body in the defensive variant, while the
strict variant re-raises the backend error instead of returning the
body. -/
theorem c2_amended_get_or_create :
    (∀ f st cid payload tags tid, alookup st.chat_traces cid = some tid →
      (inlet3_getTrace f st cid payload tags).2 = some tid ∧
      (inlet3_getTrace f st cid payload tags).1.chat_traces = st.chat_traces ∧
      ((inlet3_getTrace f st cid payload tags).1.calls.countP BEvent.isTraceOpen) =
        st.calls.countP BEvent.isTraceOpen) ∧
    (∀ f st cid payload tags, alookup st.chat_traces cid = none →
      f st.calls.length = false →
      (inlet3_getTrace f st cid payload tags).2 = some st.nextTrace ∧
      alookup (inlet3_getTrace f st cid payload tags).1.chat_traces cid =
        some st.nextTrace ∧
      ((inlet3_getTrace f st cid payload tags).1.calls.countP BEvent.isTraceOpen) =
        st.calls.countP BEvent.isTraceOpen + 1) ∧
    (∀ f st cid payload tags, alookup st.chat_traces cid = none →
      f st.calls.length = true →
      (inlet3_getTrace f st cid payload tags).2 = none ∧
      (inlet3_getTrace f st cid payload tags).1.chat_traces = st.chat_traces) ∧
    (∀ cfg f st body user, body.isDict = true →
      ((extract_metadata3 st body).2).isDict = true →
      alookup st.chat_traces (((extract_metadata3 st body).2).getN "chat_id") = none →
      f st.calls.length = true →
      alookup ((inlet3 cfg f st body user).1).chat_traces
        (((extract_metadata3 st body).2).getN "chat_id") = none ∧
      ∃ b', (inlet3 cfg f st body user).2 = .ok b') ∧
    (∀ f st cid payload tags, alookup st.chat_traces cid = none →
      f st.calls.length = true →
      (inlet1_trace f st cid payload tags).2 = .error .backendError ∧
      (inlet1_trace f st cid payload tags).1.chat_traces = st.chat_traces) :=
  ⟨fun f st cid payload tags tid h =>
      inlet3_getTrace_registered f st cid payload tags tid h,
   fun f st cid payload tags h hf =>
      inlet3_getTrace_fresh_ok f st cid payload tags h hf,
   fun f st cid payload tags h hf =>
      inlet3_getTrace_fresh_fail f st cid payload tags h hf,
   fun cfg f st body user hb hm hreg hf =>
      inlet3_open_fail_returns_body cfg f st body user hb hm hreg hf,
   fun f st cid payload tags h hf =>
      inlet1_trace_fresh_fail f st cid payload tags h hf⟩

/-- The one-registered-conversation state used by witnesses. -/
def regState : PState := { chat_traces := [(Val.str "c1", 0)] }

/-- Witness for the amended C2 at concrete inputs: reuse of a registered
handle, register-on-success, retry-after-failure, and the defensive
body-return on a failed open. -/
theorem c2_amended_get_or_create_witness :
    (inlet3_getTrace noFail regState (Val.str "c1") Val.null []).2 = some 0 ∧
    alookup (inlet3_getTrace noFail emptyState (Val.str "c1") Val.null []).1.chat_traces
      (Val.str "c1") = some 0 ∧
    (inlet3_getTrace allFail emptyState (Val.str "c1") Val.null []).2 = none ∧
    (∃ b', (inlet3 defaultValves allFail emptyState
      (Val.dict [("chat_id", Val.str "c1"), ("model", Val.str "m"),
                 ("messages", Val.list [])]) Val.null).2 = .ok b') ∧
    (inlet1_trace allFail emptyState (Val.str "c1") Val.null []).2 =
      .error .backendError :=
  ⟨(c2_amended_get_or_create.1 noFail regState (Val.str "c1") Val.null [] 0 (by decide)).1,
   (c2_amended_get_or_create.2.1 noFail emptyState (Val.str "c1") Val.null []
     (by decide) (by decide)).2.1,
   (c2_amended_get_or_create.2.2.1 allFail emptyState (Val.str "c1") Val.null []
     (by decide) (by decide)).1,
   (c2_amended_get_or_create.2.2.2.1 defaultValves allFail emptyState
     (Val.dict [("chat_id", Val.str "c1"), ("model", Val.str "m"),
                ("messages", Val.list [])]) Val.null
     (by decide) (by decide) (by decide) (by decide)).2,
   (c2_amended_get_or_create.2.2.2.2 allFail emptyState (Val.str "c1") Val.null []
     (by decide) (by decide)).1⟩

/-! ## C7: the final flush -/

/-- Whether a backend call is the flush call. -/
def BEvent.isFlush : BEvent → Bool
  | .flush => true
  | _ => false

/-- The get-or-create step of the strict inlet attempts no flush. -/
theorem inlet1_trace_flushCount (f : Nat → Bool) (st : PState) (cid payload : Val)
    (tags : List Val) :
    (inlet1_trace f st cid payload tags).1.calls.countP BEvent.isFlush =
      st.calls.countP BEvent.isFlush := by
  unfold inlet1_trace
  cases halo : alookup st.chat_traces cid with
  | none =>
    simp only [tryCall]
    split <;> simp [List.countP_append, List.countP_cons, BEvent.isFlush]
  | some tid =>
    split
    next heq => exact absurd heq (by simp)
    next tid2 heq =>
      split
      · simp
      · simp only [tryCall]
        split <;> simp [List.countP_append, List.countP_cons, BEvent.isFlush]

/-- The record-emission step of the strict inlet attempts no flush. -/
theorem inlet1_record_flushCount (cfg : Valves) (f : Nat → Bool) (st : PState)
    (tid : Nat) (bodyM chat_id metadata1 task_name : Val) (tags : List Val) :
    (inlet1_record cfg f st tid bodyM chat_id metadata1 task_name tags).1.calls.countP
      BEvent.isFlush = st.calls.countP BEvent.isFlush := by
  unfold inlet1_record
  split
  · simp only [uuid4, tryCall]
    split <;> simp [List.countP_append, List.countP_cons, BEvent.isFlush]
  · simp only [uuid4, tryCall]
    split <;> simp [List.countP_append, List.countP_cons, BEvent.isFlush]

/-- The tail of the strict inlet attempts no flush. -/
theorem inlet1_tail_flushCount (cfg : Valves) (f : Nat → Bool)
    (bodyM chat_id metadata1 task_name : Val) (tags : List Val)
    (tr : PState × Except PErr Nat) :
    (inlet1_tail cfg f bodyM chat_id metadata1 task_name tags tr).1.calls.countP
      BEvent.isFlush = tr.1.calls.countP BEvent.isFlush := by
  rcases tr with ⟨st3, r⟩
  cases r with
  | error e => simp [inlet1_tail]
  | ok tid => simp [inlet1_tail, inlet1_record_flushCount]

/-- The strict inlet never attempts a flush (the number of flush calls in
the log is unchanged, whatever the outcome). -/
theorem inlet1_flushCount (cfg : Valves) (f : Nat → Bool) (st : PState)
    (body user : Val) :
    ((inlet1 cfg f st body user).1).calls.countP BEvent.isFlush =
      st.calls.countP BEvent.isFlush := by
  rcases hme : inlet1_meta st body with ⟨st1, cid, m1⟩
  have hmeta_spec := inlet1_meta_spec st body
  rw [hme] at hmeta_spec
  simp only at hmeta_spec
  have hcl1 : st1.calls = st.calls := hmeta_spec.2.2.2.1
  have hms := inlet1_models_spec st1 cid m1 body
  have hcl2 : (inlet1_models st1 cid m1 body).calls = st.calls := by
    rw [hms.2.2.1, hcl1]
  unfold inlet1
  rw [hme]
  split
  · simp
  split
  · simp
  split
  next st1b cidb m1b heqb =>
  injection heqb with e1 e2
  injection e2 with e2a e2b
  subst e1
  subst e2a
  subst e2b
  split
  next hmiss => simp [hcl2]
  next hmiss =>
    rw [inlet1_tail_flushCount, inlet1_trace_flushCount, hcl2]

/-- The chat-id resolution of the strict outlet does not call the
backend. -/
theorem outlet1_cid_state (st : PState) (body : Val) :
    (outlet1_cid st body).1.calls = st.calls ∧
    (outlet1_cid st body).1.chat_traces = st.chat_traces ∧
    (outlet1_cid st body).1.model_names = st.model_names := by
  unfold outlet1_cid
  simp only [uuid4]
  split <;> simp

/-- The tail of the strict outlet attempts no flush. -/
theorem outlet1_finish_flushCount (cfg : Valves) (f : Nat → Bool) (st1 : PState)
    (tid : Nat) (body metadata chat_id task_name : Val) (tags : List Val)
    (msgs : List Val) :
    (outlet1_finish cfg f st1 tid body metadata chat_id task_name tags msgs).1.calls.countP
      BEvent.isFlush = st1.calls.countP BEvent.isFlush := by
  unfold outlet1_finish
  split
  next e heqa => simp
  next amo heqa =>
    simp only [uuid4, tryCall]
    split <;> split <;> (try split) <;> (try split) <;> (try split) <;> (try split) <;>
      simp_all [List.countP_append, List.countP_cons, BEvent.isFlush]

/-- The strict outlet never attempts a flush, whatever path it takes
(including the recovery re-run of the inlet). -/
theorem outlet1_flushCount (cfg : Valves) (f : Nat → Bool) (st : PState)
    (body user : Val) :
    ((outlet1 cfg f st body user).1).calls.countP BEvent.isFlush =
      st.calls.countP BEvent.isFlush := by
  rcases hcid : outlet1_cid st body with ⟨st1, cid⟩
  have hcs := outlet1_cid_state st body
  rw [hcid] at hcs
  simp only at hcs
  unfold outlet1
  rw [hcid]
  split
  · simp
  split
  next st1b cidb heqb =>
  injection heqb with e1 e2
  subst e1
  subst e2
  by_cases hmd : (body.getD "metadata" (Val.dict [])).isDict = true
  case neg => simp [hmd, hcs.1]
  case pos =>
    simp only [hmd, not_true, eq_self_iff_true, ite_false, ite_true, Bool.not_true,
      Bool.false_eq_true, if_false, if_true]
    split
    next heq =>
      rw [inlet1_flushCount, hcs.1]
    next tid heq =>
      split
      next heqm => simp [hcs.1]
      next msgsV heqm =>
        split
        next msgs =>
          rw [outlet1_finish_flushCount, hcs.1]
        next hnl =>
          simp [hcs.1]

/-- Counterexample to C7: a successful end-to-end strict outlet call makes
backend calls (trace output update, generation end) but never attempts a
flush. -/
theorem c7_counterexample :
    (outlet1 defaultValves noFail regState
      (Val.dict [("chat_id", Val.str "c1"),
        ("messages", Val.list [Val.dict [("role", Val.str "assistant"),
          ("content", Val.str "hi")]])]) Val.null).2 =
      .ok (Val.dict [("chat_id", Val.str "c1"),
        ("messages", Val.list [Val.dict [("role", Val.str "assistant"),
          ("content", Val.str "hi")]])]) ∧
    BEvent.flush ∉ (outlet1 defaultValves noFail regState
      (Val.dict [("chat_id", Val.str "c1"),
        ("messages", Val.list [Val.dict [("role", Val.str "assistant"),
          ("content", Val.str "hi")]])]) Val.null).1.calls ∧
    (outlet1 defaultValves noFail regState
      (Val.dict [("chat_id", Val.str "c1"),
        ("messages", Val.list [Val.dict [("role", Val.str "assistant"),
          ("content", Val.str "hi")]])]) Val.null).1.calls ≠ [] := by
  refine ⟨by decide, by decide, by decide⟩

/-- C7 as amended: the defensive outlet unconditionally attempts exactly
one flush, as its final backend call, whatever the guarded body did (and a
flush failure only lands in the call log, never in an exception — the
outlet is total); the strict outlet never attempts a flush on any path,
including the recovery re-run of the inlet. -/
theorem c7_amended_flush :
    (∀ cfg f st body user,
      ((outlet3 cfg f st body user).1).calls =
        ((outlet3_core cfg f st body user).1).calls ++ [BEvent.flush]) ∧
    (∀ cfg f st body user,
      ((outlet3 cfg f st body user).1).calls.getLast? = some BEvent.flush) ∧
    (∀ cfg f st body user,
      ((outlet1 cfg f st body user).1).calls.countP BEvent.isFlush =
        st.calls.countP BEvent.isFlush) := by
  have h1 : ∀ cfg f st body user,
      ((outlet3 cfg f st body user).1).calls =
        ((outlet3_core cfg f st body user).1).calls ++ [BEvent.flush] := by
    intro cfg f st body user
    rcases hcore : outlet3_core cfg f st body user with ⟨st1, r⟩
    unfold outlet3
    rw [hcore]
    have hts := (tryCall_state f st1 .flush).2.2.2.2
    rcases htc : tryCall f st1 BEvent.flush with ⟨fl, st2⟩
    rw [htc] at hts
    simp only at hts
    simp [htc, hts]
  refine ⟨h1, ?_, ?_⟩
  · intro cfg f st body user
    rw [h1 cfg f st body user]
    simp
  · intro cfg f st body user
    exact outlet1_flushCount cfg f st body user

/-! ## C8: the outlet boundary -/

/-- A successful run of the defensive outlet tail returns the body,
enriched under its `"metadata"` key or unchanged. -/
theorem outlet3_finish_ok_shape (cfg : Valves) (f : Nat → Bool) (st : PState)
    (body : Val) (tid : Nat) (chat_id metadata task_name : Val) (tags : List Val)
    (msgsV am : Val) (amoR : Except PErr Val) (st' : PState) (b' : Val)
    (h : outlet3_finish cfg f st body tid chat_id metadata task_name tags msgsV am amoR =
      (st', .ok b')) :
    b' = body ∨ ∃ m, b' = body.set "metadata" m := by
  unfold outlet3_finish at h
  split at h
  · simp at h
  next amo =>
    simp only [uuid4, tryCall] at h
    by_cases hk : body.hasKey "metadata" = true
    all_goals
      split at h <;> split at h <;> (try split at h) <;> (try split at h) <;>
        simp_all <;> right <;> exact ⟨_, h.2.symm⟩

/-- A successful run of the guarded outlet body returns the body, enriched
under its `"metadata"` key or unchanged. -/
theorem outlet3_core_ok_shape (cfg : Valves) (f : Nat → Bool) (st : PState)
    (body user : Val) (st' : PState) (b' : Val)
    (h : outlet3_core cfg f st body user = (st', .ok b')) :
    b' = body ∨ ∃ m, b' = body.set "metadata" m := by
  unfold outlet3_core at h
  split at h
  · simp at h
  by_cases hmd : (body.getD "metadata" (Val.dict [])).isDict = true
  case neg => simp [hmd] at h
  case pos =>
    simp only [hmd, not_true, eq_self_iff_true, ite_false, ite_true, Bool.not_true,
      Bool.false_eq_true, if_false, if_true] at h
    split at h <;> (try split at h) <;> (try split at h) <;> (try split at h) <;>
      (try split at h) <;> (try split at h) <;>
      first
        | exact outlet3_finish_ok_shape _ _ _ _ _ _ _ _ _ _ _ _ _ _ h
        | ((simp at h) <;> exact Or.inl h.2.symm)

/-- Counterexample to C8: the strict outlet raises a `KeyError` past its
boundary when the response body lacks `"messages"` although a trace is
registered for the conversation. -/
theorem c8_counterexample :
    (outlet1 defaultValves noFail regState
      (Val.dict [("chat_id", Val.str "c1")]) Val.null).2 = .error .keyError := by
  decide

/-- C8 as amended: the defensive outlet is total — it always returns a
body, the original one or the original enriched under its `"metadata"`
key, and no internal failure (type errors, missing fields, backend errors
on any call) escapes it; the strict outlet propagates failures (missing
`"messages"`, backend record errors) to its caller, as the counterexample
shows. -/
theorem c8_amended_outlet_total : ∀ cfg f st body user,
    (outlet3 cfg f st body user).2 = body ∨
    ∃ m, (outlet3 cfg f st body user).2 = body.set "metadata" m := by
  intro cfg f st body user
  rcases hcore : outlet3_core cfg f st body user with ⟨st1, r⟩
  unfold outlet3
  rw [hcore]
  rcases htc : tryCall f st1 BEvent.flush with ⟨fl, st2⟩
  cases r with
  | ok b =>
    simp only [htc]
    exact outlet3_core_ok_shape cfg f st body user st1 b hcore
  | error e =>
    simp [htc]

/-! ## C1: outlet recovery on an unregistered conversation -/

/-- Concrete response body used to exercise the outlet on an unregistered
conversation id. -/
def c1Body : Val :=
  Val.dict [("chat_id", Val.str "c9"), ("model", Val.str "m"),
    ("messages", Val.list [Val.dict [("role", Val.str "assistant"),
      ("content", Val.str "hi")]])]

/-- C1 counterexample: the defensive outlet (`pipelines-3.py` lines 312-314)
performs no recovery.  Called on a body whose chat id has no trace entry
it returns the body unchanged and registers no trace, whereas running the
inlet first and then the outlet leaves a registered trace — so the two end
states differ. -/
theorem c1_counterexample :
    (outlet3 defaultValves noFail emptyState c1Body Val.null).2 = c1Body ∧
    (outlet3 defaultValves noFail emptyState c1Body Val.null).1.chat_traces = [] ∧
    (outlet3 defaultValves noFail
        (inlet3 defaultValves noFail emptyState c1Body Val.null).1
        c1Body Val.null).1.chat_traces = [(Val.str "c9", 0)] := by
  decide

/-- Amended C1: only the strict variant self-heals.  Part 1: when the
resolved chat id of `pipelines-1.py`'s outlet has no trace entry, the
outlet returns exactly the result of re-invoking the full inlet on the
same body (from the state left by the id resolution).  Part 2: the
defensive variant performs no recovery — with a truthy, non-`"local"`,
unregistered chat id its guarded outlet body returns the original body
with the state untouched, and the outlet returns the body unchanged. -/
theorem c1_amended_recovery :
    (∀ cfg f st body user,
      body.isDict = true →
      (body.getD "metadata" (Val.dict [])).isDict = true →
      alookup ((outlet1_cid st body).1).chat_traces (outlet1_cid st body).2 = none →
      outlet1 cfg f st body user = inlet1 cfg f (outlet1_cid st body).1 body user) ∧
    (∀ cfg f st body user,
      body.isDict = true →
      (body.getD "metadata" (Val.dict [])).isDict = true →
      pyOr (body.getN "chat_id") ((body.getD "metadata" (Val.dict [])).getN "chat_id") ≠
        Val.str "local" →
      truthy (pyOr (body.getN "chat_id")
        ((body.getD "metadata" (Val.dict [])).getN "chat_id")) = true →
      alookup st.chat_traces (pyOr (body.getN "chat_id")
        ((body.getD "metadata" (Val.dict [])).getN "chat_id")) = none →
      outlet3_core cfg f st body user = (st, .ok body) ∧
      (outlet3 cfg f st body user).2 = body) := by
  constructor
  · intro cfg f st body user hb hm hreg
    rcases hcid : outlet1_cid st body with ⟨st1, cid⟩
    rw [hcid] at hreg
    simp only at hreg
    unfold outlet1
    rw [hcid]
    simp only [hb, hm, not_true, Bool.not_true, Bool.false_eq_true, if_false, ite_false, hreg]
  · intro cfg f st body user hb hm hnl htr hreg
    have hcore : outlet3_core cfg f st body user = (st, .ok body) := by
      unfold outlet3_core
      simp only [hb, hm, not_true, Bool.not_true, Bool.false_eq_true, if_false, ite_false]
      rw [if_neg hnl]
      rw [if_neg (by simp [htr])]
      simp only [hreg]
    refine ⟨hcore, ?_⟩
    rcases htc : tryCall f st BEvent.flush with ⟨fl, st2⟩
    have hout : outlet3 cfg f st body user = (st2, body) := by
      unfold outlet3
      simp only [hcore]
      rw [htc]
    rw [hout]

/-- Witness for the amended C1: on a body whose chat id `"w1"` is
unregistered, the strict outlet coincides with the re-invoked inlet and
the defensive outlet returns the body unchanged. -/
theorem c1_amended_recovery_witness :
    outlet1 defaultValves noFail emptyState
      (Val.dict [("chat_id", Val.str "w1"), ("model", Val.str "m"),
        ("messages", Val.list [])]) Val.null =
      inlet1 defaultValves noFail
        (outlet1_cid emptyState (Val.dict [("chat_id", Val.str "w1"),
          ("model", Val.str "m"), ("messages", Val.list [])])).1
        (Val.dict [("chat_id", Val.str "w1"), ("model", Val.str "m"),
          ("messages", Val.list [])]) Val.null ∧
    (outlet3 defaultValves noFail emptyState
      (Val.dict [("chat_id", Val.str "w1"), ("model", Val.str "m"),
        ("messages", Val.list [])]) Val.null).2 =
      Val.dict [("chat_id", Val.str "w1"), ("model", Val.str "m"),
        ("messages", Val.list [])] :=
  ⟨c1_amended_recovery.1 defaultValves noFail emptyState _ Val.null
      (by decide) (by decide) (by decide),
   (c1_amended_recovery.2 defaultValves noFail emptyState _ Val.null
      (by decide) (by decide) (by decide) (by decide) (by decide)).2⟩
/-! ## C10: metadata aliasing and the body frame -/

/-- A successful defensive inlet returns the body with the extracted
metadata stored under `"metadata"`, possibly with a synthesized
`"messages"` list, and possibly with the metadata entry replaced by its
enriched version. -/
theorem inlet3_ok_shape (cfg : Valves) (f : Nat → Bool) (st : PState) (body user : Val)
    (st' : PState) (b' : Val) (h : inlet3 cfg f st body user = (st', .ok b')) :
    body.isDict = true ∧
    ∃ b2,
      (b2 = body.set "metadata" (extract_metadata3 st body).2 ∨
       ∃ ms, b2 = (body.set "metadata" (extract_metadata3 st body).2).set "messages" ms) ∧
      (b' = b2 ∨ ∃ mF, b' = b2.set "metadata" mF) := by
  have hb : body.isDict = true := by
    by_contra hbx
    unfold inlet3 at h
    rw [if_pos (by simpa using hbx)] at h
    simp at h
  refine ⟨hb, ?_⟩
  rcases hex : extract_metadata3 st body with ⟨st1, metadata⟩
  unfold inlet3 at h
  rw [hex] at h
  simp only [hb, not_true, Bool.not_true, Bool.false_eq_true, if_false, ite_false] at h
  by_cases hmd : metadata.isDict = true
  case neg => simp [hmd] at h
  case pos =>
  simp only [hmd, not_true, Bool.not_true, Bool.false_eq_true, if_false, ite_false] at h
  split at h <;> (try split at h) <;> (try split at h) <;> (try split at h) <;>
    (try split at h) <;> (try simp only [uuid4] at h) <;> (try split at h) <;>
    (try split at h) <;>
    first
      | (simp at h; exact ⟨_, Or.inl rfl, Or.inl h.2.symm⟩)
      | (simp at h; exact ⟨_, Or.inr ⟨_, rfl⟩, Or.inl h.2.symm⟩)
      | (simp at h; exact ⟨_, Or.inl rfl, Or.inr ⟨_, h.2.symm⟩⟩)
      | (simp at h; exact ⟨_, Or.inr ⟨_, rfl⟩, Or.inr ⟨_, h.2.symm⟩⟩)
/-- C10: the metadata record stored into the body remains visibly aliased
by `body["metadata"]`, and the handlers respect the body frame.  (1) A
successful strict inlet leaves every top-level body key other than
`"metadata"` unchanged while the returned metadata carries the task under
`"type"`, the `"interface"` mark, and — on generation tasks — the resolved
model id and name.  (2) A successful defensive inlet leaves every key
other than `"metadata"` and the possibly synthesized `"messages"`
unchanged and always returns a body carrying a metadata entry.  (3) In
the defensive outlet's non-generation path (body carrying a metadata key,
truthy extracted usage), the returned body's metadata entry is exactly
the enriched record with the usage attached.  (4) The defensive outlet
never changes a top-level key other than `"metadata"`. -/
theorem c10_metadata_aliasing :
    (∀ cfg f st body user st' b', inlet1 cfg f st body user = (st', .ok b') →
      (∀ k, k ≠ "metadata" → b'.get k = body.get k) ∧
      (b'.getN "metadata").getN "type" =
        ((inlet1_meta st body).2.2).getD "task" (Val.str "user_response") ∧
      (b'.getN "metadata").getN "interface" = Val.str "open-webui" ∧
      (((inlet1_meta st body).2.2).getD "task" (Val.str "user_response") =
          Val.str "llm_response" →
        (b'.getN "metadata").hasKey "model_id" = true ∧
        (b'.getN "metadata").hasKey "model_name" = true)) ∧
    (∀ cfg f st body user st' b', inlet3 cfg f st body user = (st', .ok b') →
      (∀ k, k ≠ "metadata" → k ≠ "messages" → b'.get k = body.get k) ∧
      ∃ m, b'.get "metadata" = some m) ∧
    (∀ cfg f st body tid chat_id metadata task_name tags msgsV am amo,
      task_name ≠ Val.str "llm_response" →
      truthy (extract_usage amo) = true →
      body.hasKey "metadata" = true →
      (outlet3_finish cfg f st body tid chat_id metadata task_name tags msgsV am
        (.ok amo)).2 = .ok (body.set "metadata"
          (((metadata.set "type" task_name).set "interface"
            (metadata.getD "interface" (Val.str "open-webui"))).set "usage"
            (extract_usage amo)))) ∧
    (∀ cfg f st body user k, k ≠ "metadata" →
      ((outlet3 cfg f st body user).2).get k = body.get k) := by
  refine ⟨?_, ?_, ?_, ?_⟩
  · intro cfg f st body user st' b' h
    obtain ⟨hb, hmeta, hmiss, hmods, mF, hbsh, mid, mname, hmFsh⟩ :=
      inlet1_ok_spec cfg f st body user st' b' h
    have hX : (body.set "metadata" (inlet1_meta st body).2.2).isDict = true := by
      rw [Val.isDict_set]
      exact hb
    have hgetmF : b'.getN "metadata" = mF := by
      rw [hbsh]
      exact Val.getN_set_self _ hX "metadata" mF
    have hm1d : ((inlet1_meta st body).2.2).isDict = true := by
      rw [(inlet1_meta_spec st body).1, Val.isDict_set]
      exact hmeta
    refine ⟨?_, ?_, ?_, ?_⟩
    · intro k hk
      rw [hbsh, Val.get_set_ne _ _ _ _ hk, Val.get_set_ne _ _ _ _ hk]
    · rw [hgetmF]
      cases hmFsh with
      | inl hx =>
        rw [hx.2, Val.getN_set_ne _ _ _ _ (by decide), Val.getN_set_ne _ _ _ _ (by decide),
          Val.getN_set_ne _ _ _ _ (by decide)]
        exact Val.getN_set_self _ hm1d _ _
      | inr hx =>
        rw [hx.2, Val.getN_set_ne _ _ _ _ (by decide)]
        exact Val.getN_set_self _ hm1d _ _
    · rw [hgetmF]
      cases hmFsh with
      | inl hx =>
        rw [hx.2, Val.getN_set_ne _ _ _ _ (by decide), Val.getN_set_ne _ _ _ _ (by decide)]
        exact Val.getN_set_self _ (by rw [Val.isDict_set]; exact hm1d) _ _
      | inr hx =>
        rw [hx.2]
        exact Val.getN_set_self _ (by rw [Val.isDict_set]; exact hm1d) _ _
    · intro htask
      cases hmFsh with
      | inl hx =>
        constructor
        · rw [hgetmF, hx.2, Val.hasKey_set_ne _ _ _ _ (by decide)]
          exact Val.hasKey_set_self _
            (by rw [Val.isDict_set, Val.isDict_set]; exact hm1d) _ _
        · rw [hgetmF, hx.2]
          exact Val.hasKey_set_self _
            (by rw [Val.isDict_set, Val.isDict_set, Val.isDict_set]; exact hm1d) _ _
      | inr hx => exact absurd htask hx.1
  · intro cfg f st body user st' b' h
    obtain ⟨hb, b2, hb2, hb'⟩ := inlet3_ok_shape cfg f st body user st' b' h
    have hb2d : b2.isDict = true := by
      cases hb2 with
      | inl hx => rw [hx, Val.isDict_set]; exact hb
      | inr hx => obtain ⟨ms, hx⟩ := hx; rw [hx, Val.isDict_set, Val.isDict_set]; exact hb
    constructor
    · intro k hkm hkms
      have hg2 : b2.get k = body.get k := by
        cases hb2 with
        | inl hx => rw [hx, Val.get_set_ne _ _ _ _ hkm]
        | inr hx =>
          obtain ⟨ms, hx⟩ := hx
          rw [hx, Val.get_set_ne _ _ _ _ hkms, Val.get_set_ne _ _ _ _ hkm]
      cases hb' with
      | inl hx => rw [hx, hg2]
      | inr hx =>
        obtain ⟨mF, hx⟩ := hx
        rw [hx, Val.get_set_ne _ _ _ _ hkm, hg2]
    · have hg2m : b2.get "metadata" = some (extract_metadata3 st body).2 := by
        cases hb2 with
        | inl hx => rw [hx]; exact Val.get_set_self _ hb _ _
        | inr hx =>
          obtain ⟨ms, hx⟩ := hx
          rw [hx, Val.get_set_ne _ _ _ _ (by decide)]
          exact Val.get_set_self _ hb _ _
      cases hb' with
      | inl hx => exact ⟨_, by rw [hx, hg2m]⟩
      | inr hx =>
        obtain ⟨mF, hx⟩ := hx
        exact ⟨mF, by rw [hx]; exact Val.get_set_self _ hb2d _ _⟩
  · intro cfg f st body tid chat_id metadata task_name tags msgsV am amo htask husage hkey
    unfold outlet3_finish
    rcases htc : tryCall f st (BEvent.traceUpdate tid (Val.dict [("output", pyOr am body)]))
      with ⟨fl, st1⟩
    simp only [htc, uuid4, htask, husage, hkey, ite_true, ite_false, if_true, if_false]
  · intro cfg f st body user k hk
    rcases hcore : outlet3_core cfg f st body user with ⟨st1, r⟩
    unfold outlet3
    simp only [hcore]
    cases r with
    | error e => rfl
    | ok b =>
      rcases outlet3_core_ok_shape cfg f st body user st1 b hcore with hsh | ⟨m, hsh⟩
      · simp only []
        rw [hsh]
      · simp only []
        rw [hsh, Val.get_set_ne _ _ _ _ hk]

/-- Witness for C10: the defensive outlet's non-generation path attaches
the extracted usage to the metadata entry of the returned body, and the
outlet leaves the `"model"` key of a concrete body unchanged. -/
theorem c10_metadata_aliasing_witness :
    (outlet3_finish defaultValves noFail emptyState
      (Val.dict [("metadata", Val.dict []), ("model", Val.str "m")]) 0 (Val.str "c1")
      (Val.dict []) (Val.str "user_response") [] (Val.list []) (Val.str "")
      (.ok (Val.dict [("usage", Val.dict [("prompt_tokens", Val.int 3),
        ("completion_tokens", Val.int 4)])]))).2 =
      .ok ((Val.dict [("metadata", Val.dict []), ("model", Val.str "m")]).set "metadata"
        ((((Val.dict []).set "type" (Val.str "user_response")).set "interface"
          ((Val.dict []).getD "interface" (Val.str "open-webui"))).set "usage"
          (extract_usage (Val.dict [("usage", Val.dict [("prompt_tokens", Val.int 3),
            ("completion_tokens", Val.int 4)])])))) ∧
    ((outlet3 defaultValves noFail emptyState
      (Val.dict [("metadata", Val.dict []), ("model", Val.str "m")]) Val.null).2).get
        "model" =
      (Val.dict [("metadata", Val.dict []), ("model", Val.str "m")]).get "model" :=
  ⟨c10_metadata_aliasing.2.2.1 defaultValves noFail emptyState
      (Val.dict [("metadata", Val.dict []), ("model", Val.str "m")]) 0 (Val.str "c1")
      (Val.dict []) (Val.str "user_response") [] (Val.list []) (Val.str "")
      (Val.dict [("usage", Val.dict [("prompt_tokens", Val.int 3),
        ("completion_tokens", Val.int 4)])])
      (by decide) (by decide) (by decide),
   c10_metadata_aliasing.2.2.2 defaultValves noFail emptyState
      (Val.dict [("metadata", Val.dict []), ("model", Val.str "m")]) Val.null
      "model" (by decide)⟩
